import Mathlib

set_option maxRecDepth 100000
set_option maxHeartbeats 3000000
set_option linter.unusedVariables false

/-!
Verification of the `dadi` `Numerics` module against its specification.

The source is shallowly embedded: floating-point arithmetic is modelled by
exact arithmetic over `ℚ` (or an arbitrary field / commutative ring), numpy
array indexing that can raise `IndexError` is modelled with `Option`, raised
exceptions are modelled with `Except String`, and the process-wide projection
cache is modelled by explicit state passing of an association list.  The very
large Mathematica-generated `quartic_extrap` / `quintic_extrap` numerators are
split into summand chunks purely so that elaboration stays fast; summing the
chunks restores the source expressions verbatim.
-/

namespace Dadi

/-- Model of `numpy.linspace(a, b, n)`: `n` evenly spaced rationals from `a`
to `b` inclusive; `[a]` when `n = 1`, `[]` when `n = 0`. -/
def linspace (a b : ℚ) (n : ℕ) : List ℚ :=
  if n = 1 then [a]
  else (List.range n).map fun i : ℕ => a + (b - a) * i / ((n : ℚ) - 1)

/-- Model of numpy 1-D indexing `l[i]` with negative-index wraparound:
an out-of-bounds access is `none` (an `IndexError` in the source). -/
def npGet (l : List ℚ) (i : ℤ) : Option ℚ :=
  let j : ℤ := if i < 0 then i + l.length else i
  if 0 ≤ j ∧ j < l.length then l[j.toNat]? else none

/-- `default_grid` from `Numerics.py`, over exact rationals (`0.05 = 1/20`).
The boundary segment is `linspace 0 (1/20) small_pts`; the interior comes from
a cubic `a*q^3 + b*q^2 + c*q + d` over `q = linspace 0 1 large_pts`, and the
two are concatenated with the boundary segment's final point dropped
(`grid[:-1]`).  `none` models an `IndexError` escaping from `q[1]`, `grid[-1]`
or `grid[-2]` (which happens exactly when a segment is too short). -/
def default_grid (num_pts : ℕ) : Option (List ℚ) :=
  let small_pts := num_pts / 10
  let large_pts := num_pts - small_pts + 1
  let grid := linspace 0 (1/20) small_pts
  let q := linspace 0 1 large_pts
  match npGet q 1, npGet q 0 with
  | some q1, some q0 =>
    let dq := q1 - q0
    match npGet grid (-1), npGet grid (-2) with
    | some x_start, some x_penult =>
      let dx_start := x_start - x_penult
      let d := x_start
      let c := dx_start / dq
      let b := -3 * (-dq + dx_start + dq * x_start) / dq
      let a := -2 * b / 3
      some (grid.dropLast ++ q.map fun t => a * t^3 + b * t^2 + c * t + d)
    | _, _ => none
  | _, _ => none

section Extrapolators

variable {K : Type} [CommRing K] [Div K]

/-- `linear_extrap((y1, y2), (x1, x2))` from the source. -/
def linear_extrap (y1 y2 x1 x2 : K) : K :=
  (x2 * y1 - x1 * y2) / (x2 - x1)

/-- `quadratic_extrap((y1, y2, y3), (x1, x2, x3))` from the source. -/
def quadratic_extrap (y1 y2 y3 x1 x2 x3 : K) : K :=
  x2*x3/((x1-x2)*(x1-x3)) * y1 + x1*x3/((x2-x1)*(x2-x3)) * y2 + x1*x2/((x3-x1)*(x3-x2)) * y3

/-- `cubic_extrap((y1..y4), (x1..x4))` from the source (its Mathematica `CForm` expression, with `Power(a,n)` as `a^n`). -/
def cubic_extrap (y1 y2 y3 y4 x1 x2 x3 x4 : K) : K :=
  ((x1*(x1 - x3)*x3* (x1 - x4)*(x3 - x4)*x4* y2 + x2*x4^2* (-(x3^3*y1) + x3^2*x4*y1 + x1^2* (x1 - x4)*y3) + x1^2*x2* x3^2*(-x1 + x3)* y4 + x2^3* (x4*(-(x3^2* y1) + x3*x4*y1 + x1*(x1 - x4)*y3) + x1*x3*(-x1 + x3)* y4) + x2^2* (x1*x4* (-x1^2 + x4^2)*y3 + x3^3* (x4*y1 - x1*y4) + x3*(-(x4^3* y1) + x1^3*y4)))/ ((x1 - x2)*(x1 - x3)* (x2 - x3)*(x1 - x4)* (x2 - x4)*(x3 - x4)))

/-- Sub-expression of the `quartic_extrap` numerator (the source expression is split
into chunks purely so elaboration stays fast; summing the chunks restores it verbatim). -/
def quarticN_g1 (y1 y2 y3 y4 y5 x1 x2 x3 x4 x5 : K) : K :=
  -(x1*(x1 - x3)*x3*(x1 - x4)*(x3 - x4)*x4*(x1 - x5)* (x3 - x5)*(x4 - x5)*x5*y2)
      + x2^4*(-(x1*(x1 - x4)*x4*(x1 - x5)* (x4 - x5)*x5*y3) + x3^3*(x1*x5*(-x1 + x5)*y4 + x4^2*(x5*y1 - x1*y5) + x4*(-(x5^2*y1) + x1^2*y5)) + x3^2*(x1*x5* (x1^2 - x5^2)*y4 + x4^3*(-(x5*y1) + x1*y5) + x4*(x5^3*y1 - x1^3*y5)) + x3*(x1^2*x5^2*(-x1 + x5)*y4 + x4^3* (x5^2*y1 - x1^2*y5) + x4^2* (-(x5^3*y1) + x1^3*y5)))

/-- Sub-expression of the `quartic_extrap` numerator (the source expression is split
into chunks purely so elaboration stays fast; summing the chunks restores it verbatim). -/
def quarticN_g2 (y1 y2 y3 y4 y5 x1 x2 x3 x4 x5 : K) : K :=
  x2^3*(x1*x4*x5* (x1^3*(x4 - x5) + x4*x5*(x4^2 - x5^2) + x1*(-x4^3 + x5^3))*y3 + x3^4*(x1*(x1 - x5)*x5*y4 + x4^2*(-(x5*y1) + x1*y5) + x4*(x5^2*y1 - x1^2*y5)) + x3*(x1^2*x5^2* (x1^2 - x5^2)*y4 + x4^4* (-(x5^2*y1) + x1^2*y5) + x4^2* (x5^4*y1 - x1^4*y5)) + x3^2*(x1*x5* (-x1^3 + x5^3)*y4 + x4^4*(x5*y1 - x1*y5) + x4*(-(x5^4*y1) + x1^4*y5)))

/-- Sub-expression of the `quartic_extrap` numerator (the source expression is split
into chunks purely so elaboration stays fast; summing the chunks restores it verbatim). -/
def quarticN_g3 (y1 y2 y3 y4 y5 x1 x2 x3 x4 x5 : K) : K :=
  x2*(x1^2*(x1 - x4)*x4^2* (x1 - x5)*(x4 - x5)*x5^2*y3 + x3^4*(x1^2*(x1 - x5)* x5^2*y4 + x4^3* (-(x5^2*y1) + x1^2*y5) + x4^2* (x5^3*y1 - x1^3*y5)) + x3^2*(x1^3*(x1 - x5)* x5^3*y4 + x4^4* (-(x5^3*y1) + x1^3*y5) + x4^3* (x5^4*y1 - x1^4*y5)) + x3^3*(x1^2*x5^2* (-x1^2 + x5^2)*y4 + x4^4* (x5^2*y1 - x1^2*y5) + x4^2* (-(x5^4*y1) + x1^4*y5)))

/-- Sub-expression of the `quartic_extrap` numerator (the source expression is split
into chunks purely so elaboration stays fast; summing the chunks restores it verbatim). -/
def quarticN_g4 (y1 y2 y3 y4 y5 x1 x2 x3 x4 x5 : K) : K :=
  x2^2*(x1*x4*x5* (x4^2*x5^2*(-x4 + x5) + x1^3*(-x4^2 + x5^2) + x1^2*(x4^3 - x5^3))*y3 + x3^4* (x1*x5*(-x1^2 + x5^2)*y4 + x4^3*(x5*y1 - x1*y5) + x4*(-(x5^3*y1) + x1^3*y5)) + x3^3*(x1*x5* (x1^3 - x5^3)*y4 + x4^4*(-(x5*y1) + x1*y5) + x4*(x5^4*y1 - x1^4*y5)) + x3*(x1^3*x5^3*(-x1 + x5)*y4 + x4^4* (x5^3*y1 - x1^3*y5) + x4^3* (-(x5^4*y1) + x1^4*y5)))

/-- Sub-expression of the `quartic_extrap` numerator (the source expression is split
into chunks purely so elaboration stays fast; summing the chunks restores it verbatim). -/
def quarticN (y1 y2 y3 y4 y5 x1 x2 x3 x4 x5 : K) : K :=
  quarticN_g1 y1 y2 y3 y4 y5 x1 x2 x3 x4 x5
      + quarticN_g2 y1 y2 y3 y4 y5 x1 x2 x3 x4 x5
      + quarticN_g3 y1 y2 y3 y4 y5 x1 x2 x3 x4 x5
      + quarticN_g4 y1 y2 y3 y4 y5 x1 x2 x3 x4 x5

/-- `quartic_extrap` from the source (CForm expression): numerator chunks over the
source denominator. -/
def quartic_extrap (y1 y2 y3 y4 y5 x1 x2 x3 x4 x5 : K) : K :=
  (quarticN y1 y2 y3 y4 y5 x1 x2 x3 x4 x5) /
    (((x1 - x2)*(x1 - x3)*(x2 - x3)*(x1 - x4)*(x2 - x4)* (x3 - x4)*(x1 - x5)*(x2 - x5)*(x3 - x5)*(x4 - x5)))

/-- Sub-expression of the `quintic_extrap` numerator (the source expression is split
into chunks purely so elaboration stays fast; summing the chunks restores it verbatim). -/
def quinticN_2_f_g1 (y1 y2 y3 y4 y5 y6 x1 x2 x3 x4 x5 x6 : K) : K :=
  -(x1*(x1 - x4)*x4*(x1 - x5)* (x4 - x5)*x5*(x1 - x6)*(x4 - x6)*(x5 - x6)* x6*y3)
      + x3^4* (-(x1*(x1 - x5)*x5*(x1 - x6)*(x5 - x6)*x6* y4) + x4^3* (x1*x6*(-x1 + x6)*y5 + x5^2*(x6*y1 - x1*y6) + x5*(-(x6^2*y1) + x1^2*y6)) + x4^2* (x1*x6*(x1^2 - x6^2)*y5 + x5^3*(-(x6*y1) + x1*y6) + x5*(x6^3*y1 - x1^3*y6)) + x4*(x1^2*x6^2*(-x1 + x6)* y5 + x5^3* (x6^2*y1 - x1^2*y6) + x5^2* (-(x6^3*y1) + x1^3*y6)))

/-- Sub-expression of the `quintic_extrap` numerator (the source expression is split
into chunks purely so elaboration stays fast; summing the chunks restores it verbatim). -/
def quinticN_2_f_g2 (y1 y2 y3 y4 y5 y6 x1 x2 x3 x4 x5 x6 : K) : K :=
  x3^3* (x1*x5*x6*(x1^3*(x5 - x6) + x5*x6*(x5^2 - x6^2) + x1*(-x5^3 + x6^3))*y4 + x4^4* (x1*(x1 - x6)*x6*y5 + x5^2*(-(x6*y1) + x1*y6) + x5*(x6^2*y1 - x1^2*y6)) + x4*(x1^2*x6^2* (x1^2 - x6^2)*y5 + x5^4* (-(x6^2*y1) + x1^2*y6) + x5^2* (x6^4*y1 - x1^4*y6)) + x4^2* (x1*x6*(-x1^3 + x6^3)*y5 + x5^4*(x6*y1 - x1*y6) + x5*(-(x6^4*y1) + x1^4*y6)))

/-- Sub-expression of the `quintic_extrap` numerator (the source expression is split
into chunks purely so elaboration stays fast; summing the chunks restores it verbatim). -/
def quinticN_2_f_g3 (y1 y2 y3 y4 y5 y6 x1 x2 x3 x4 x5 x6 : K) : K :=
  x3*(x1^2*(x1 - x5)*x5^2* (x1 - x6)*(x5 - x6)*x6^2*y4 + x4^4* (x1^2*(x1 - x6)*x6^2*y5 + x5^3* (-(x6^2*y1) + x1^2*y6) + x5^2* (x6^3*y1 - x1^3*y6)) + x4^2* (x1^3*(x1 - x6)*x6^3*y5 + x5^4* (-(x6^3*y1) + x1^3*y6) + x5^3* (x6^4*y1 - x1^4*y6)) + x4^3* (x1^2*x6^2* (-x1^2 + x6^2)*y5 + x5^4* (x6^2*y1 - x1^2*y6) + x5^2* (-(x6^4*y1) + x1^4*y6)))

/-- Sub-expression of the `quintic_extrap` numerator (the source expression is split
into chunks purely so elaboration stays fast; summing the chunks restores it verbatim). -/
def quinticN_2_f_g4 (y1 y2 y3 y4 y5 y6 x1 x2 x3 x4 x5 x6 : K) : K :=
  x3^2* (x1*x5*x6*(x5^2*x6^2* (-x5 + x6) + x1^3* (-x5^2 + x6^2) + x1^2*(x5^3 - x6^3)) *y4 + x4^4* (x1*x6*(-x1^2 + x6^2)*y5 + x5^3*(x6*y1 - x1*y6) + x5*(-(x6^3*y1) + x1^3*y6)) + x4^3* (x1*x6*(x1^3 - x6^3)*y5 + x5^4*(-(x6*y1) + x1*y6) + x5*(x6^4*y1 - x1^4*y6)) + x4*(x1^3*x6^3*(-x1 + x6)* y5 + x5^4* (x6^3*y1 - x1^3*y6) + x5^3* (-(x6^4*y1) + x1^4*y6)))

/-- Sub-expression of the `quintic_extrap` numerator (the source expression is split
into chunks purely so elaboration stays fast; summing the chunks restores it verbatim). -/
def quinticN_2_f (y1 y2 y3 y4 y5 y6 x1 x2 x3 x4 x5 x6 : K) : K :=
  quinticN_2_f_g1 y1 y2 y3 y4 y5 y6 x1 x2 x3 x4 x5 x6
      + quinticN_2_f_g2 y1 y2 y3 y4 y5 y6 x1 x2 x3 x4 x5 x6
      + quinticN_2_f_g3 y1 y2 y3 y4 y5 y6 x1 x2 x3 x4 x5 x6
      + quinticN_2_f_g4 y1 y2 y3 y4 y5 y6 x1 x2 x3 x4 x5 x6

/-- Sub-expression of the `quintic_extrap` numerator (the source expression is split
into chunks purely so elaboration stays fast; summing the chunks restores it verbatim). -/
def quinticN_2 (y1 y2 y3 y4 y5 y6 x1 x2 x3 x4 x5 x6 : K) : K :=
  x2^5*(quinticN_2_f y1 y2 y3 y4 y5 y6 x1 x2 x3 x4 x5 x6)

/-- Sub-expression of the `quintic_extrap` numerator (the source expression is split
into chunks purely so elaboration stays fast; summing the chunks restores it verbatim). -/
def quinticN_3_f_g1 (y1 y2 y3 y4 y5 y6 x1 x2 x3 x4 x5 x6 : K) : K :=
  x1*(x1 - x4)*x4*(x1 - x5)* (x4 - x5)*x5*(x1 - x6)*(x4 - x6)*(x5 - x6)* x6*(x1 + x4 + x5 + x6)*y3
      + x3^5*(x1*(x1 - x5)*x5*(x1 - x6)* (x5 - x6)*x6*y4 + x4^3* (x1*(x1 - x6)*x6*y5 + x5^2*(-(x6*y1) + x1*y6) + x5*(x6^2*y1 - x1^2*y6)) + x4*(x1^2*(x1 - x6)*x6^2*y5 + x5^3* (-(x6^2*y1) + x1^2*y6) + x5^2* (x6^3*y1 - x1^3*y6)) + x4^2* (x1*x6*(-x1^2 + x6^2)*y5 + x5^3*(x6*y1 - x1*y6) + x5*(-(x6^3*y1) + x1^3*y6)))

/-- Sub-expression of the `quintic_extrap` numerator (the source expression is split
into chunks purely so elaboration stays fast; summing the chunks restores it verbatim). -/
def quinticN_3_f_g2 (y1 y2 y3 y4 y5 y6 x1 x2 x3 x4 x5 x6 : K) : K :=
  x3^2* (x1*x5*(x1^2 - x5^2)*x6* (x1^2 - x6^2)* (x5^2 - x6^2)*y4 + x4^5* (x1*x6*(x1^2 - x6^2)*y5 + x5^3*(-(x6*y1) + x1*y6) + x5*(x6^3*y1 - x1^3*y6)) + x4*(x1^3*x6^3* (x1^2 - x6^2)*y5 + x5^5* (-(x6^3*y1) + x1^3*y6) + x5^3* (x6^5*y1 - x1^5*y6)) + x4^3* (x1*x6*(-x1^4 + x6^4)*y5 + x5^5*(x6*y1 - x1*y6) + x5*(-(x6^5*y1) + x1^5*y6)))

/-- Sub-expression of the `quintic_extrap` numerator (the source expression is split
into chunks purely so elaboration stays fast; summing the chunks restores it verbatim). -/
def quinticN_3_f_g3 (y1 y2 y3 y4 y5 y6 x1 x2 x3 x4 x5 x6 : K) : K :=
  x3^3* (x1*x5*x6*(-(x5^4*x6) + x5*x6^4 + x1^4*(-x5 + x6) + x1*(x5^4 - x6^4))*y4 + x4^5* (x1*x6*(-x1 + x6)*y5 + x5^2*(x6*y1 - x1*y6) + x5*(-(x6^2*y1) + x1^2*y6)) + x4^2* (x1*x6*(x1^4 - x6^4)*y5 + x5^5*(-(x6*y1) + x1*y6) + x5*(x6^5*y1 - x1^5*y6)) + x4*(x1^2*x6^2* (-x1^3 + x6^3)*y5 + x5^5* (x6^2*y1 - x1^2*y6) + x5^2* (-(x6^5*y1) + x1^5*y6)))

/-- Sub-expression of the `quintic_extrap` numerator (the source expression is split
into chunks purely so elaboration stays fast; summing the chunks restores it verbatim). -/
def quinticN_3_f_g4 (y1 y2 y3 y4 y5 y6 x1 x2 x3 x4 x5 x6 : K) : K :=
  x3*(x1^2*x5^2*x6^2* (-(x5^3*x6) + x5*x6^3 + x1^3*(-x5 + x6) + x1*(x5^3 - x6^3))*y4 + x4^5* (x1^2*x6^2*(-x1 + x6)*y5 + x5^3* (x6^2*y1 - x1^2*y6) + x5^2* (-(x6^3*y1) + x1^3*y6)) + x4^3* (x1^2*x6^2* (x1^3 - x6^3)*y5 + x5^5* (-(x6^2*y1) + x1^2*y6) + x5^2* (x6^5*y1 - x1^5*y6)) + x4^2* (x1^3*x6^3* (-x1^2 + x6^2)*y5 + x5^5* (x6^3*y1 - x1^3*y6) + x5^3* (-(x6^5*y1) + x1^5*y6)))

/-- Sub-expression of the `quintic_extrap` numerator (the source expression is split
into chunks purely so elaboration stays fast; summing the chunks restores it verbatim). -/
def quinticN_3_f (y1 y2 y3 y4 y5 y6 x1 x2 x3 x4 x5 x6 : K) : K :=
  quinticN_3_f_g1 y1 y2 y3 y4 y5 y6 x1 x2 x3 x4 x5 x6
      + quinticN_3_f_g2 y1 y2 y3 y4 y5 y6 x1 x2 x3 x4 x5 x6
      + quinticN_3_f_g3 y1 y2 y3 y4 y5 y6 x1 x2 x3 x4 x5 x6
      + quinticN_3_f_g4 y1 y2 y3 y4 y5 y6 x1 x2 x3 x4 x5 x6

/-- Sub-expression of the `quintic_extrap` numerator (the source expression is split
into chunks purely so elaboration stays fast; summing the chunks restores it verbatim). -/
def quinticN_3 (y1 y2 y3 y4 y5 y6 x1 x2 x3 x4 x5 x6 : K) : K :=
  x2^4*(quinticN_3_f y1 y2 y3 y4 y5 y6 x1 x2 x3 x4 x5 x6)

/-- Sub-expression of the `quintic_extrap` numerator (the source expression is split
into chunks purely so elaboration stays fast; summing the chunks restores it verbatim). -/
def quinticN_4_f_g1 (y1 y2 y3 y4 y5 y6 x1 x2 x3 x4 x5 x6 : K) : K :=
  -(x1*(x1 - x4)*x4*(x1 - x5)* (x4 - x5)*x5*(x1 - x6)*(x4 - x6)*(x5 - x6)* x6*(x5*x6 + x4*(x5 + x6) + x1*(x4 + x5 + x6))*y3)
      + x3^5*(x1*x5*x6* (-(x5^3*x6) + x5*x6^3 + x1^3*(-x5 + x6) + x1*(x5^3 - x6^3))*y4 + x4^4* (x1*x6*(-x1 + x6)*y5 + x5^2*(x6*y1 - x1*y6) + x5*(-(x6^2*y1) + x1^2*y6)) + x4^2* (x1*x6*(x1^3 - x6^3)*y5 + x5^4*(-(x6*y1) + x1*y6) + x5*(x6^4*y1 - x1^4*y6)) + x4*(x1^2*x6^2* (-x1^2 + x6^2)*y5 + x5^4* (x6^2*y1 - x1^2*y6) + x5^2* (-(x6^4*y1) + x1^4*y6)))

/-- Sub-expression of the `quintic_extrap` numerator (the source expression is split
into chunks purely so elaboration stays fast; summing the chunks restores it verbatim). -/
def quinticN_4_f_g2 (y1 y2 y3 y4 y5 y6 x1 x2 x3 x4 x5 x6 : K) : K :=
  x3^4* (x1*x5*x6*(x1^4*(x5 - x6) + x5*x6*(x5^3 - x6^3) + x1*(-x5^4 + x6^4))*y4 + x4^5* (x1*(x1 - x6)*x6*y5 + x5^2*(-(x6*y1) + x1*y6) + x5*(x6^2*y1 - x1^2*y6)) + x4*(x1^2*x6^2* (x1^3 - x6^3)*y5 + x5^5* (-(x6^2*y1) + x1^2*y6) + x5^2* (x6^5*y1 - x1^5*y6)) + x4^2* (x1*x6*(-x1^4 + x6^4)*y5 + x5^5*(x6*y1 - x1*y6) + x5*(-(x6^5*y1) + x1^5*y6)))

/-- Sub-expression of the `quintic_extrap` numerator (the source expression is split
into chunks purely so elaboration stays fast; summing the chunks restores it verbatim). -/
def quinticN_4_f_g3 (y1 y2 y3 y4 y5 y6 x1 x2 x3 x4 x5 x6 : K) : K :=
  x3*(x1^2*x5^2* x6^2* (x5^2*(x5 - x6)*x6^2 + x1^3* (x5^2 - x6^2) + x1^2*(-x5^3 + x6^3))*y4 + x4^5* (x1^2*x6^2* (x1^2 - x6^2)*y5 + x5^4* (-(x6^2*y1) + x1^2*y6) + x5^2* (x6^4*y1 - x1^4*y6)) + x4^2* (x1^4*(x1 - x6)*x6^4*y5 + x5^5* (-(x6^4*y1) + x1^4*y6) + x5^4* (x6^5*y1 - x1^5*y6)) + x4^4* (x1^2*x6^2* (-x1^3 + x6^3)*y5 + x5^5* (x6^2*y1 - x1^2*y6) + x5^2* (-(x6^5*y1) + x1^5*y6)))

/-- Sub-expression of the `quintic_extrap` numerator (the source expression is split
into chunks purely so elaboration stays fast; summing the chunks restores it verbatim). -/
def quinticN_4_f_g4 (y1 y2 y3 y4 y5 y6 x1 x2 x3 x4 x5 x6 : K) : K :=
  x3^2* (x1*x5*x6*(x5^3*x6^3* (-x5 + x6) + x1^4* (-x5^3 + x6^3) + x1^3*(x5^4 - x6^4)) *y4 + x4^5* (x1*x6*(-x1^3 + x6^3)*y5 + x5^4*(x6*y1 - x1*y6) + x5*(-(x6^4*y1) + x1^4*y6)) + x4^4* (x1*x6*(x1^4 - x6^4)*y5 + x5^5*(-(x6*y1) + x1*y6) + x5*(x6^5*y1 - x1^5*y6)) + x4*(x1^4*x6^4*(-x1 + x6)* y5 + x5^5* (x6^4*y1 - x1^4*y6) + x5^4* (-(x6^5*y1) + x1^5*y6)))

/-- Sub-expression of the `quintic_extrap` numerator (the source expression is split
into chunks purely so elaboration stays fast; summing the chunks restores it verbatim). -/
def quinticN_4_f (y1 y2 y3 y4 y5 y6 x1 x2 x3 x4 x5 x6 : K) : K :=
  quinticN_4_f_g1 y1 y2 y3 y4 y5 y6 x1 x2 x3 x4 x5 x6
      + quinticN_4_f_g2 y1 y2 y3 y4 y5 y6 x1 x2 x3 x4 x5 x6
      + quinticN_4_f_g3 y1 y2 y3 y4 y5 y6 x1 x2 x3 x4 x5 x6
      + quinticN_4_f_g4 y1 y2 y3 y4 y5 y6 x1 x2 x3 x4 x5 x6

/-- Sub-expression of the `quintic_extrap` numerator (the source expression is split
into chunks purely so elaboration stays fast; summing the chunks restores it verbatim). -/
def quinticN_4 (y1 y2 y3 y4 y5 y6 x1 x2 x3 x4 x5 x6 : K) : K :=
  x2^3*(quinticN_4_f y1 y2 y3 y4 y5 y6 x1 x2 x3 x4 x5 x6)

/-- Sub-expression of the `quintic_extrap` numerator (the source expression is split
into chunks purely so elaboration stays fast; summing the chunks restores it verbatim). -/
def quinticN_5_f_g1 (y1 y2 y3 y4 y5 y6 x1 x2 x3 x4 x5 x6 : K) : K :=
  -(x1^2*(x1 - x4)*x4^2* (x1 - x5)*(x4 - x5)*x5^2*(x1 - x6)* (x4 - x6)*(x5 - x6)*x6^2*y3)
      + x3^5*(-(x1^2*(x1 - x5)* x5^2*(x1 - x6)*(x5 - x6)* x6^2*y4) + x4^4* (x1^2*x6^2*(-x1 + x6)*y5 + x5^3* (x6^2*y1 - x1^2*y6) + x5^2* (-(x6^3*y1) + x1^3*y6)) + x4^3* (x1^2*x6^2* (x1^2 - x6^2)*y5 + x5^4* (-(x6^2*y1) + x1^2*y6) + x5^2* (x6^4*y1 - x1^4*y6)) + x4^2* (x1^3*x6^3*(-x1 + x6)*y5 + x5^4* (x6^3*y1 - x1^3*y6) + x5^3* (-(x6^4*y1) + x1^4*y6)))

/-- Sub-expression of the `quintic_extrap` numerator (the source expression is split
into chunks purely so elaboration stays fast; summing the chunks restores it verbatim). -/
def quinticN_5_f_g2 (y1 y2 y3 y4 y5 y6 x1 x2 x3 x4 x5 x6 : K) : K :=
  x3^4* (x1^2*x5^2*x6^2* (x1^3*(x5 - x6) + x5*x6*(x5^2 - x6^2) + x1*(-x5^3 + x6^3))*y4 + x4^5* (x1^2*(x1 - x6)*x6^2*y5 + x5^3* (-(x6^2*y1) + x1^2*y6) + x5^2* (x6^3*y1 - x1^3*y6)) + x4^2* (x1^3*x6^3* (x1^2 - x6^2)*y5 + x5^5* (-(x6^3*y1) + x1^3*y6) + x5^3* (x6^5*y1 - x1^5*y6)) + x4^3* (x1^2*x6^2* (-x1^3 + x6^3)*y5 + x5^5* (x6^2*y1 - x1^2*y6) + x5^2* (-(x6^5*y1) + x1^5*y6)))

/-- Sub-expression of the `quintic_extrap` numerator (the source expression is split
into chunks purely so elaboration stays fast; summing the chunks restores it verbatim). -/
def quinticN_5_f_g3 (y1 y2 y3 y4 y5 y6 x1 x2 x3 x4 x5 x6 : K) : K :=
  x3^2* (x1^3*(x1 - x5)*x5^3*(x1 - x6)* (x5 - x6)*x6^3*y4 + x4^5* (x1^3*(x1 - x6)*x6^3*y5 + x5^4* (-(x6^3*y1) + x1^3*y6) + x5^3* (x6^4*y1 - x1^4*y6)) + x4^3* (x1^4*(x1 - x6)*x6^4*y5 + x5^5* (-(x6^4*y1) + x1^4*y6) + x5^4* (x6^5*y1 - x1^5*y6)) + x4^4* (x1^3*x6^3* (-x1^2 + x6^2)*y5 + x5^5* (x6^3*y1 - x1^3*y6) + x5^3* (-(x6^5*y1) + x1^5*y6)))

/-- Sub-expression of the `quintic_extrap` numerator (the source expression is split
into chunks purely so elaboration stays fast; summing the chunks restores it verbatim). -/
def quinticN_5_f_g4 (y1 y2 y3 y4 y5 y6 x1 x2 x3 x4 x5 x6 : K) : K :=
  x3^3* (x1^2*x5^2*x6^2* (x5^2*x6^2*(-x5 + x6) + x1^3* (-x5^2 + x6^2) + x1^2*(x5^3 - x6^3)) *y4 + x4^5* (x1^2*x6^2* (-x1^2 + x6^2)*y5 + x5^4* (x6^2*y1 - x1^2*y6) + x5^2* (-(x6^4*y1) + x1^4*y6)) + x4^4* (x1^2*x6^2* (x1^3 - x6^3)*y5 + x5^5* (-(x6^2*y1) + x1^2*y6) + x5^2* (x6^5*y1 - x1^5*y6)) + x4^2* (x1^4*x6^4*(-x1 + x6)*y5 + x5^5* (x6^4*y1 - x1^4*y6) + x5^4* (-(x6^5*y1) + x1^5*y6)))

/-- Sub-expression of the `quintic_extrap` numerator (the source expression is split
into chunks purely so elaboration stays fast; summing the chunks restores it verbatim). -/
def quinticN_5_f (y1 y2 y3 y4 y5 y6 x1 x2 x3 x4 x5 x6 : K) : K :=
  quinticN_5_f_g1 y1 y2 y3 y4 y5 y6 x1 x2 x3 x4 x5 x6
      + quinticN_5_f_g2 y1 y2 y3 y4 y5 y6 x1 x2 x3 x4 x5 x6
      + quinticN_5_f_g3 y1 y2 y3 y4 y5 y6 x1 x2 x3 x4 x5 x6
      + quinticN_5_f_g4 y1 y2 y3 y4 y5 y6 x1 x2 x3 x4 x5 x6

/-- Sub-expression of the `quintic_extrap` numerator (the source expression is split
into chunks purely so elaboration stays fast; summing the chunks restores it verbatim). -/
def quinticN_5 (y1 y2 y3 y4 y5 y6 x1 x2 x3 x4 x5 x6 : K) : K :=
  x2*(quinticN_5_f y1 y2 y3 y4 y5 y6 x1 x2 x3 x4 x5 x6)

/-- Sub-expression of the `quintic_extrap` numerator (the source expression is split
into chunks purely so elaboration stays fast; summing the chunks restores it verbatim). -/
def quinticN_6_f_g1 (y1 y2 y3 y4 y5 y6 x1 x2 x3 x4 x5 x6 : K) : K :=
  x1*(x1 - x4)*x4*(x1 - x5)* (x4 - x5)*x5*(x1 - x6)*(x4 - x6)*(x5 - x6)* x6*(x4*x5*x6 + x1*(x5*x6 + x4*(x5 + x6)))*y3
      + x3^5* (x1*x5*x6*(x5^2*(x5 - x6)* x6^2 + x1^3* (x5^2 - x6^2) + x1^2*(-x5^3 + x6^3))*y4 + x4^4* (x1*x6*(x1^2 - x6^2)*y5 + x5^3*(-(x6*y1) + x1*y6) + x5*(x6^3*y1 - x1^3*y6)) + x4*(x1^3*(x1 - x6)*x6^3*y5 + x5^4* (-(x6^3*y1) + x1^3*y6) + x5^3* (x6^4*y1 - x1^4*y6)) + x4^3* (x1*x6*(-x1^3 + x6^3)*y5 + x5^4*(x6*y1 - x1*y6) + x5*(-(x6^4*y1) + x1^4*y6)))

/-- Sub-expression of the `quintic_extrap` numerator (the source expression is split
into chunks purely so elaboration stays fast; summing the chunks restores it verbatim). -/
def quinticN_6_f_g2 (y1 y2 y3 y4 y5 y6 x1 x2 x3 x4 x5 x6 : K) : K :=
  x3^3* (x1*x5*x6*(x5^3*(x5 - x6)* x6^3 + x1^4* (x5^3 - x6^3) + x1^3*(-x5^4 + x6^4))*y4 + x4^5* (x1*x6*(x1^3 - x6^3)*y5 + x5^4*(-(x6*y1) + x1*y6) + x5*(x6^4*y1 - x1^4*y6)) + x4*(x1^4*(x1 - x6)*x6^4*y5 + x5^5* (-(x6^4*y1) + x1^4*y6) + x5^4* (x6^5*y1 - x1^5*y6)) + x4^4* (x1*x6*(-x1^4 + x6^4)*y5 + x5^5*(x6*y1 - x1*y6) + x5*(-(x6^5*y1) + x1^5*y6)))

/-- Sub-expression of the `quintic_extrap` numerator (the source expression is split
into chunks purely so elaboration stays fast; summing the chunks restores it verbatim). -/
def quinticN_6_f_g3 (y1 y2 y3 y4 y5 y6 x1 x2 x3 x4 x5 x6 : K) : K :=
  x3^4* (-(x1*x5*(x1^2 - x5^2)*x6* (x1^2 - x6^2)* (x5^2 - x6^2)*y4) + x4^5* (x1*x6*(-x1^2 + x6^2)*y5 + x5^3*(x6*y1 - x1*y6) + x5*(-(x6^3*y1) + x1^3*y6)) + x4^3* (x1*x6*(x1^4 - x6^4)*y5 + x5^5*(-(x6*y1) + x1*y6) + x5*(x6^5*y1 - x1^5*y6)) + x4*(x1^3*x6^3* (-x1^2 + x6^2)*y5 + x5^5* (x6^3*y1 - x1^3*y6) + x5^3* (-(x6^5*y1) + x1^5*y6)))

/-- Sub-expression of the `quintic_extrap` numerator (the source expression is split
into chunks purely so elaboration stays fast; summing the chunks restores it verbatim). -/
def quinticN_6_f_g4 (y1 y2 y3 y4 y5 y6 x1 x2 x3 x4 x5 x6 : K) : K :=
  x3*(-(x1^3*(x1 - x5)*x5^3* (x1 - x6)*(x5 - x6)*x6^3*y4) + x4^5* (x1^3*x6^3*(-x1 + x6)*y5 + x5^4* (x6^3*y1 - x1^3*y6) + x5^3* (-(x6^4*y1) + x1^4*y6)) + x4^4* (x1^3*x6^3* (x1^2 - x6^2)*y5 + x5^5* (-(x6^3*y1) + x1^3*y6) + x5^3* (x6^5*y1 - x1^5*y6)) + x4^3* (x1^4*x6^4*(-x1 + x6)*y5 + x5^5* (x6^4*y1 - x1^4*y6) + x5^4* (-(x6^5*y1) + x1^5*y6)))

/-- Sub-expression of the `quintic_extrap` numerator (the source expression is split
into chunks purely so elaboration stays fast; summing the chunks restores it verbatim). -/
def quinticN_6_f (y1 y2 y3 y4 y5 y6 x1 x2 x3 x4 x5 x6 : K) : K :=
  quinticN_6_f_g1 y1 y2 y3 y4 y5 y6 x1 x2 x3 x4 x5 x6
      + quinticN_6_f_g2 y1 y2 y3 y4 y5 y6 x1 x2 x3 x4 x5 x6
      + quinticN_6_f_g3 y1 y2 y3 y4 y5 y6 x1 x2 x3 x4 x5 x6
      + quinticN_6_f_g4 y1 y2 y3 y4 y5 y6 x1 x2 x3 x4 x5 x6

/-- Sub-expression of the `quintic_extrap` numerator (the source expression is split
into chunks purely so elaboration stays fast; summing the chunks restores it verbatim). -/
def quinticN_6 (y1 y2 y3 y4 y5 y6 x1 x2 x3 x4 x5 x6 : K) : K :=
  x2^2*(quinticN_6_f y1 y2 y3 y4 y5 y6 x1 x2 x3 x4 x5 x6)

/-- Sub-expression of the `quintic_extrap` numerator (the source expression is split
into chunks purely so elaboration stays fast; summing the chunks restores it verbatim). -/
def quinticN (y1 y2 y3 y4 y5 y6 x1 x2 x3 x4 x5 x6 : K) : K :=
  -(x1*(x1 - x3)*x3*(x1 - x4)*(x3 - x4)*x4*(x1 - x5)* (x3 - x5)*(x4 - x5)*x5*(x1 - x6)*(x3 - x6)* (x4 - x6)*(x5 - x6)*x6*y2)
      + quinticN_2 y1 y2 y3 y4 y5 y6 x1 x2 x3 x4 x5 x6
      + quinticN_3 y1 y2 y3 y4 y5 y6 x1 x2 x3 x4 x5 x6
      + quinticN_4 y1 y2 y3 y4 y5 y6 x1 x2 x3 x4 x5 x6
      + quinticN_5 y1 y2 y3 y4 y5 y6 x1 x2 x3 x4 x5 x6
      + quinticN_6 y1 y2 y3 y4 y5 y6 x1 x2 x3 x4 x5 x6

/-- `quintic_extrap` from the source (CForm expression): numerator chunks over the
source denominator. -/
def quintic_extrap (y1 y2 y3 y4 y5 y6 x1 x2 x3 x4 x5 x6 : K) : K :=
  (quinticN y1 y2 y3 y4 y5 y6 x1 x2 x3 x4 x5 x6) /
    (((x1 - x2)*(x1 - x3)*(-x2 + x3)*(x1 - x4)* (-x2 + x4)*(-x3 + x4)*(x1 - x5)*(x2 - x5)* (x3 - x5)*(x4 - x5)*(x1 - x6)*(x2 - x6)* (x3 - x6)*(x4 - x6)*(x5 - x6)))

end Extrapolators



/-- The representative grid spacing `default_grid(pts)[1]` computed inside the
`extrap_func` loop. -/
def gridx (pts : ℕ) : Option ℚ :=
  (default_grid pts).bind fun g => npGet g 1

/-- The `for pts in pts_l` loop of `extrap_func`: each iteration first computes
the grid spacing `default_grid(pts)[1]` and then invokes `func pts`.  The first
component is the trace of arguments `func` was actually applied to, in order
(the observable invocations of the wrapped function); the second carries the
accumulated `x_l` and `result_l`, or the `IndexError` propagating out of the
grid indexing (in which case the loop stops and later entries never run). -/
def extrap_loop {α : Type} [RatCast α] (func : ℕ → α) :
    List ℕ → List ℕ × Except String (List α × List α)
  | [] => ([], .ok ([], []))
  | pts :: rest =>
    match gridx pts with
    | none => ([], .error "IndexError: index out of bounds")
    | some gx =>
      let x : α := (gx : ℚ)
      let result := func pts
      match extrap_loop func rest with
      | (tr, .ok (x_l, result_l)) => (pts :: tr, .ok (x :: x_l, result :: result_l))
      | (tr, .error e) => (pts :: tr, .error e)

/-- The callable returned by `make_extrap_func`: runs the resolution loop, then
dispatches on `len(pts_l)` to the extrapolator of the matching order; any other
length raises the `ValueError` naming the valid range 1..6.  The trace of
`func` invocations is returned alongside. -/
def extrap_func {α : Type} [CommRing α] [Div α] [RatCast α]
    (func : ℕ → α) (pts_l : List ℕ) : List ℕ × Except String α :=
  match extrap_loop func pts_l with
  | (tr, .error e) => (tr, .error e)
  | (tr, .ok (x_l, result_l)) =>
    (tr,
      if pts_l.length = 1 then
        match result_l with
        | r1 :: _ => .ok r1
        | _ => .error "IndexError: empty result list"
      else if pts_l.length = 2 then
        match result_l, x_l with
        | [r1, r2], [a1, a2] => .ok (linear_extrap r1 r2 a1 a2)
        | _, _ => .error "ValueError: unpacking mismatch"
      else if pts_l.length = 3 then
        match result_l, x_l with
        | [r1, r2, r3], [a1, a2, a3] => .ok (quadratic_extrap r1 r2 r3 a1 a2 a3)
        | _, _ => .error "ValueError: unpacking mismatch"
      else if pts_l.length = 4 then
        match result_l, x_l with
        | [r1, r2, r3, r4], [a1, a2, a3, a4] => .ok (cubic_extrap r1 r2 r3 r4 a1 a2 a3 a4)
        | _, _ => .error "ValueError: unpacking mismatch"
      else if pts_l.length = 5 then
        match result_l, x_l with
        | [r1, r2, r3, r4, r5], [a1, a2, a3, a4, a5] =>
            .ok (quartic_extrap r1 r2 r3 r4 r5 a1 a2 a3 a4 a5)
        | _, _ => .error "ValueError: unpacking mismatch"
      else if pts_l.length = 6 then
        match result_l, x_l with
        | [r1, r2, r3, r4, r5, r6], [a1, a2, a3, a4, a5, a6] =>
            .ok (quintic_extrap r1 r2 r3 r4 r5 r6 a1 a2 a3 a4 a5 a6)
        | _, _ => .error "ValueError: unpacking mismatch"
      else
        .error "Number of calculations to use for extrapolation must be between 1 and 6")

/-- `make_extrap_func(func)` returns the extrapolating callable `extrap_func`. -/
def make_extrap_func {α : Type} [CommRing α] [Div α] [RatCast α]
    (func : ℕ → α) : List ℕ → List ℕ × Except String α :=
  extrap_func func

/-- `make_extrap_log_func(func)`: wraps `func` with the logarithm before the
extrapolation and the exponential after it.  The floating-point `numpy.log` /
`numpy.exp` primitives are the abstract parameters `lo` / `ex` of the
embedding (instantiated with `Real.log` / `Real.exp` in the theorems); `ex` is
mapped over the successful result, exceptions propagate unchanged. -/
def make_extrap_log_func {α : Type} [CommRing α] [Div α] [RatCast α]
    (ex lo : α → α) (func : ℕ → α) : List ℕ → List ℕ × Except String α :=
  fun args =>
    let logfunc : ℕ → α := fun n => lo (func n)
    let exlog_func := make_extrap_func logfunc
    let r := exlog_func args
    (r.1, r.2.map ex)

/-- `comb(N, k)` from scipy: the binomial coefficient (as a float), `0` when
`k < 0` or `k > N`.  Modelled exactly over `ℚ`. -/
def combZ (N k : ℤ) : ℚ :=
  if 0 ≤ k ∧ k ≤ N then (N.toNat.choose k.toNat : ℚ) else 0

/-- `numpy.arange(n + 1)` (as called on `proj_to + 1`): the integers
`0, 1, ..., n`; empty when `n < 0`. -/
def intRange (n : ℤ) : List ℤ := (List.range (n + 1).toNat).map Int.ofNat

/-- Abstract model of the floating-point scalars used by `_cached_projection`:
`comb`, `gammaln` (on the integer arguments it receives there), arithmetic,
`exp`, and the `isnan` test.  Exact-`ℚ` and NaN-capable instances are given
below. -/
structure FloatModel (F : Type) where
  comb : ℤ → ℤ → F
  gammaln : ℤ → F
  add : F → F → F
  sub : F → F → F
  mul : F → F → F
  div : F → F → F
  exp : F → F
  isNaN : F → Bool

/-- `_lncomb(N, k) = gammaln(N+1) - gammaln(k+1) - gammaln(N-k+1)`. -/
def lncomb {F : Type} (M : FloatModel F) (N k : ℤ) : F :=
  M.sub (M.sub (M.gammaln (N + 1)) (M.gammaln (k + 1))) (M.gammaln (N - k + 1))

/-- The direct ratio vector of `_cached_projection`: entry `j` of
`comb(proj_to, proj_hits) * comb(proj_from - proj_to, hits - proj_hits)
/ comb(proj_from, hits)` for `proj_hits = arange(proj_to + 1)`. -/
def projDirect {F : Type} (M : FloatModel F) (proj_to proj_from hits : ℤ) : List F :=
  (intRange proj_to).map fun j =>
    M.div (M.mul (M.comb proj_to j) (M.comb (proj_from - proj_to) (hits - j)))
      (M.comb proj_from hits)

/-- The log-space fallback vector of `_cached_projection`: entry `j` is
`exp(_lncomb(proj_to, j) + _lncomb(proj_from - proj_to, hits - j)
- _lncomb(proj_from, hits))`. -/
def projFallback {F : Type} (M : FloatModel F) (proj_to proj_from hits : ℤ) : List F :=
  (intRange proj_to).map fun j =>
    M.exp (M.sub (M.add (lncomb M proj_to j) (lncomb M (proj_from - proj_to) (hits - j)))
      (lncomb M proj_from hits))

/-- The `_projection_cache` dictionary, as explicit association-list state. -/
abbrev ProjCache (F : Type) := List ((ℤ × ℤ × ℤ) × List F)

/-- Dictionary lookup `_projection_cache[key]`; `none` is the `KeyError` path. -/
def lookupKey {F : Type} (key : ℤ × ℤ × ℤ) : ProjCache F → Option (List F)
  | [] => none
  | (k, v) :: rest => if k = key then some v else lookupKey key rest

/-- `_cached_projection(proj_to, proj_from, hits)` with the process-wide cache
passed explicitly.  Returns the coefficient vector, the updated cache, and an
instrumentation flag recording whether the `except KeyError` computation path
ran (`false` on a cache hit).  On a miss the direct vector is computed; if any
entry is NaN the whole vector is replaced by the log-space fallback; the result
is stored under the key before returning. -/
def cached_projection {F : Type} (M : FloatModel F) (proj_to proj_from hits : ℤ)
    (cache : ProjCache F) : List F × ProjCache F × Bool :=
  let key := (proj_to, proj_from, hits)
  match lookupKey key cache with
  | some v => (v, cache, false)
  | none =>
    let direct := projDirect M proj_to proj_from hits
    let contrib :=
      if direct.any M.isNaN then projFallback M proj_to proj_from hits else direct
    (contrib, (key, contrib) :: cache, true)

/-- Exact-arithmetic instance: `ℚ` scalars, no NaN (the fallback path is dead,
so `gammaln` and `exp` are irrelevant stubs). -/
def ratModel : FloatModel ℚ where
  comb := combZ
  gammaln _ := 0
  add x y := x + y
  sub x y := x - y
  mul x y := x * y
  div x y := x / y
  exp x := x
  isNaN _ := false

/-- NaN-capable instance: scalars are `Option ℚ` with `none` as NaN; division
by zero produces NaN and every operation propagates it. -/
def optModel : FloatModel (Option ℚ) where
  comb N k := some (combZ N k)
  gammaln _ := some 0
  add a b := match a, b with | some x, some y => some (x + y) | _, _ => none
  sub a b := match a, b with | some x, some y => some (x - y) | _, _ => none
  mul a b := match a, b with | some x, some y => some (x * y) | _, _ => none
  div a b := match a, b with
    | some x, some y => if y = 0 then none else some (x / y)
    | _, _ => none
  exp a := a
  isNaN a := a.isNone

/-- numpy arrays are modelled as functions `ι → K`; broadcasting a rational
scalar over an array is the pointwise cast. -/
instance {ι : Type} {π : ι → Type} [∀ i, RatCast (π i)] : RatCast (∀ i, π i) :=
  ⟨fun q i => (q : π i)⟩

-- ### closed form of the grid for valid sizes

/-- Interior-cubic linear coefficient `c = dx_start/dq` for grid size `n`. -/
def cq (n : ℕ) : ℚ := ((n - n / 10 : ℕ) : ℚ) / (20 * (((n / 10 : ℕ) : ℚ) - 1))

/-- `e = 19/20 - c`; the interior cubic is `e*(3q^2 - 2q^3) + c*q + 1/20`. -/
def ce (n : ℕ) : ℚ := 19/20 - cq n

/-- Boundary point `i` of the grid: `linspace 0 (1/20) (n/10)` at index `i`. -/
def bpt (n : ℕ) (i : ℕ) : ℚ := 0 + (1/20 - 0) * i / (((n / 10 : ℕ) : ℚ) - 1)

/-- Interior point `j` of the grid: the cubic at `q = j/m`, `m = n - n/10`. -/
def ipt (n : ℕ) (j : ℕ) : ℚ :=
  -2 * ce n * ((j : ℚ) / ((n - n / 10 : ℕ) : ℚ))^3
    + 3 * ce n * ((j : ℚ) / ((n - n / 10 : ℕ) : ℚ))^2
    + cq n * ((j : ℚ) / ((n - n / 10 : ℕ) : ℚ)) + 1/20

/-- Closed form of `default_grid n` for valid `n`. -/
def gridList (n : ℕ) : List ℚ :=
  (List.range (n / 10 - 1)).map (bpt n) ++ (List.range (n - n / 10 + 1)).map (ipt n)

-- ## Infrastructure theorems

theorem linspace_length (a b : ℚ) (n : ℕ) : (linspace a b n).length = n := by
  unfold linspace
  split
  · rw [List.length_singleton]; omega
  · rw [List.length_map, List.length_range]

theorem linspace_getElem? (a b : ℚ) {n : ℕ} (hn : n ≠ 1) {i : ℕ} (hi : i < n) :
    (linspace a b n)[i]? = some (a + (b - a) * i / ((n : ℚ) - 1)) := by
  unfold linspace
  rw [if_neg hn, List.getElem?_map, List.getElem?_range hi, Option.map_some']

theorem npGet_nonneg (l : List ℚ) {i : ℤ} (h0 : 0 ≤ i) (h : i < l.length) :
    npGet l i = l[i.toNat]? := by
  unfold npGet
  rw [if_neg (show ¬ i < 0 by omega)]
  rw [if_pos (show 0 ≤ i ∧ i < (l.length : ℤ) from ⟨h0, h⟩)]

theorem npGet_neg (l : List ℚ) {i : ℤ} (hneg : i < 0) (h0 : 0 ≤ i + l.length) :
    npGet l i = l[(i + l.length).toNat]? := by
  unfold npGet
  rw [if_pos (show i < 0 from hneg)]
  rw [if_pos (show 0 ≤ i + (l.length : ℤ) ∧ i + (l.length : ℤ) < (l.length : ℤ) from ⟨h0, by omega⟩)]

theorem default_grid_eq {n : ℕ} (hs : 2 ≤ n / 10) :
    default_grid n = some (gridList n) := by
  have hs1 : n / 10 ≠ 1 := by omega
  have hn20 : 20 ≤ n := by omega
  have hmpos : 18 ≤ n - n / 10 := by omega
  have hL1 : n - n / 10 + 1 ≠ 1 := by omega
  have hsQ : (((n / 10 : ℕ) : ℚ) - 1) ≠ 0 := by
    have h2 : (2 : ℚ) ≤ ((n / 10 : ℕ) : ℚ) := by exact_mod_cast hs
    intro h; nlinarith
  have hmQ : ((n - n / 10 : ℕ) : ℚ) ≠ 0 := by
    have h18 : (18 : ℚ) ≤ ((n - n / 10 : ℕ) : ℚ) := by exact_mod_cast hmpos
    intro h; nlinarith
  have hlg : (linspace 0 (1/20) (n / 10)).length = n / 10 := linspace_length _ _ _
  have hlq : (linspace 0 1 (n - n / 10 + 1)).length = n - n / 10 + 1 := linspace_length _ _ _
  -- the four indexings
  have hq1 : npGet (linspace 0 1 (n - n / 10 + 1)) 1 =
      some (0 + (1 - 0) * ((1 : ℕ) : ℚ) / (((n - n / 10 + 1 : ℕ) : ℚ) - 1)) := by
    rw [npGet_nonneg _ (by omega) (by rw [hlq]; omega)]
    rw [show ((1 : ℤ)).toNat = 1 from rfl]
    rw [linspace_getElem? _ _ hL1 (by omega)]
  have hq0 : npGet (linspace 0 1 (n - n / 10 + 1)) 0 =
      some (0 + (1 - 0) * ((0 : ℕ) : ℚ) / (((n - n / 10 + 1 : ℕ) : ℚ) - 1)) := by
    rw [npGet_nonneg _ (by omega) (by rw [hlq]; omega)]
    rw [show ((0 : ℤ)).toNat = 0 from rfl]
    rw [linspace_getElem? _ _ hL1 (by omega)]
  have hgm1 : npGet (linspace 0 (1/20) (n / 10)) (-1) =
      some (0 + (1/20 - 0) * ((n / 10 - 1 : ℕ) : ℚ) / (((n / 10 : ℕ) : ℚ) - 1)) := by
    rw [npGet_neg _ (by omega) (by rw [hlg]; omega)]
    rw [show ((-1 : ℤ) + (linspace 0 (1/20) (n / 10)).length).toNat = n / 10 - 1 by
      rw [hlg]; omega]
    rw [linspace_getElem? _ _ hs1 (by omega)]
  have hgm2 : npGet (linspace 0 (1/20) (n / 10)) (-2) =
      some (0 + (1/20 - 0) * ((n / 10 - 2 : ℕ) : ℚ) / (((n / 10 : ℕ) : ℚ) - 1)) := by
    rw [npGet_neg _ (by omega) (by rw [hlg]; omega)]
    rw [show ((-2 : ℤ) + (linspace 0 (1/20) (n / 10)).length).toNat = n / 10 - 2 by
      rw [hlg]; omega]
    rw [linspace_getElem? _ _ hs1 (by omega)]
  rw [default_grid]
  simp only [hq1, hq0, hgm1, hgm2]
  refine congrArg some ?_
  have e1 : ((n / 10 - 1 : ℕ) : ℚ) = ((n / 10 : ℕ) : ℚ) - 1 := by
    rw [Nat.cast_sub (by omega : 1 ≤ n / 10), Nat.cast_one]
  have e2 : ((n / 10 - 2 : ℕ) : ℚ) = ((n / 10 : ℕ) : ℚ) - 2 := by
    rw [Nat.cast_sub (by omega : 2 ≤ n / 10)]; norm_num
  have hc : ((n - n / 10 + 1 : ℕ) : ℚ) - 1 = ((n - n / 10 : ℕ) : ℚ) := by
    push_cast; ring
  rw [gridList]
  refine congrArg₂ List.append ?_ ?_
  · -- boundary part: dropLast of the small linspace
    rw [show (bpt n) = (fun i : ℕ => 0 + (1/20 - 0) * i / (((n / 10 : ℕ) : ℚ) - 1)) from rfl]
    rw [linspace, if_neg hs1]
    obtain ⟨k, hk⟩ : ∃ k, n / 10 = k + 1 := ⟨n / 10 - 1, by omega⟩
    rw [hk]
    rw [show k + 1 - 1 = k from by omega]
    rw [List.range_succ, List.map_append, List.map_singleton, List.dropLast_concat]
  · -- interior part: the cubic over the big linspace
    rw [show linspace 0 1 (n - n / 10 + 1) =
        (List.range (n - n / 10 + 1)).map
          (fun i : ℕ => 0 + (1 - 0) * i / (((n - n / 10 + 1 : ℕ) : ℚ) - 1)) from by
      rw [linspace, if_neg hL1]]
    rw [List.map_map]
    refine List.map_congr_left ?_
    intro j hj
    simp only [Function.comp, ipt, ce, cq]
    rw [hc, e1, e2]
    simp only [Nat.cast_one, Nat.cast_zero]
    field_simp
    ring


-- ### analytic facts for the interior cubic

theorem quadS_bounds {u v : ℚ} (hu : 0 ≤ u) (huv : u ≤ v) (hv : v ≤ 1) :
    0 ≤ 3*(u+v) - 2*(u^2 + u*v + v^2) ∧ 3*(u+v) - 2*(u^2 + u*v + v^2) ≤ 3/2 := by
  constructor
  · nlinarith [mul_nonneg hu (sub_nonneg.2 hv), sq_nonneg (u - v),
      mul_nonneg (le_trans hu huv) (sub_nonneg.2 hv)]
  · nlinarith [sq_nonneg (u + v - 1), sq_nonneg (u - v)]

theorem cubic_step_pos {c S : ℚ} (hc0 : 0 < c) (hc : c < 57/20)
    (hS0 : 0 ≤ S) (hS : S ≤ 3/2) : 0 < (19/20 - c) * S + c := by
  rcases le_or_lt 0 (19/20 - c) with he | he
  · nlinarith [mul_nonneg he hS0]
  · nlinarith [mul_le_mul_of_nonpos_left hS (le_of_lt he)]


-- ### bounds for the interior linear coefficient

theorem cq_pos {n : ℕ} (hs : 2 ≤ n / 10) : 0 < cq n := by
  have hm : 18 ≤ n - n / 10 := by omega
  have hmQ : (18:ℚ) ≤ ((n - n / 10 : ℕ) : ℚ) := by exact_mod_cast hm
  have hsQ : (2:ℚ) ≤ ((n / 10 : ℕ) : ℚ) := by exact_mod_cast hs
  unfold cq
  apply div_pos (by linarith) (by linarith)

theorem cq_lt {n : ℕ} (hs : 2 ≤ n / 10) : cq n < 57/20 := by
  have hnat : n - n / 10 < 57 * (n / 10 - 1) := by omega
  have hcast : ((n - n / 10 : ℕ) : ℚ) < 57 * (((n / 10 : ℕ) : ℚ) - 1) := by
    have h1 : ((n - n / 10 : ℕ) : ℚ) < ((57 * (n / 10 - 1) : ℕ) : ℚ) := by
      exact_mod_cast hnat
    have h2 : ((57 * (n / 10 - 1) : ℕ) : ℚ) = 57 * (((n / 10 : ℕ) : ℚ) - 1) := by
      rw [Nat.cast_mul, Nat.cast_sub (by omega : 1 ≤ n / 10)]
      norm_num
    linarith [h2 ▸ h1]
  have hsQ : (2:ℚ) ≤ ((n / 10 : ℕ) : ℚ) := by exact_mod_cast hs
  unfold cq
  rw [div_lt_iff₀ (by linarith)]
  linarith

-- ### boundary segment facts

theorem bpt_zero {n : ℕ} : bpt n 0 = 0 := by
  unfold bpt
  norm_num

theorem bpt_step {n : ℕ} (hs : 2 ≤ n / 10) (i : ℕ) : bpt n i < bpt n (i + 1) := by
  have hsQ : (2:ℚ) ≤ ((n / 10 : ℕ) : ℚ) := by exact_mod_cast hs
  have hS1 : (0:ℚ) < ((n / 10 : ℕ) : ℚ) - 1 := by linarith
  unfold bpt
  have hi : (i:ℚ) < ((i+1 : ℕ) : ℚ) := by exact_mod_cast Nat.lt_succ_self i
  have h20 : (0:ℚ) < 1/20 := by norm_num
  apply add_lt_add_left
  have h120 : (0:ℚ) ≤ 1/20 - 0 := by norm_num
  gcongr

-- ### interior segment facts

theorem ipt_zero {n : ℕ} : ipt n 0 = 1/20 := by
  unfold ipt
  norm_num

theorem ipt_last {n : ℕ} (hs : 2 ≤ n / 10) : ipt n (n - n / 10) = 1 := by
  have hm : 18 ≤ n - n / 10 := by omega
  have hXne : ((n - n / 10 : ℕ) : ℚ) ≠ 0 := by
    have h18 : (18:ℚ) ≤ ((n - n / 10 : ℕ) : ℚ) := by exact_mod_cast hm
    intro h; linarith
  unfold ipt ce
  rw [div_self hXne]
  ring

theorem ipt_step {n : ℕ} (hs : 2 ≤ n / 10) {j : ℕ} (hj : j < n - n / 10) :
    ipt n j < ipt n (j + 1) := by
  have hm : 18 ≤ n - n / 10 := by omega
  have hX : (0:ℚ) < ((n - n / 10 : ℕ) : ℚ) := by
    have h18 : (18:ℚ) ≤ ((n - n / 10 : ℕ) : ℚ) := by exact_mod_cast hm
    linarith
  have hXne : ((n - n / 10 : ℕ) : ℚ) ≠ 0 := ne_of_gt hX
  have hjc : ((j + 1 : ℕ) : ℚ) = (j:ℚ) + 1 := by push_cast; ring
  have hvu : ((j + 1 : ℕ) : ℚ) / ((n - n / 10 : ℕ) : ℚ) - (j:ℚ) / ((n - n / 10 : ℕ) : ℚ)
      = 1 / ((n - n / 10 : ℕ) : ℚ) := by
    rw [hjc]
    field_simp
  have hu0 : (0:ℚ) ≤ (j:ℚ) / ((n - n / 10 : ℕ) : ℚ) := by positivity
  have huv : (j:ℚ) / ((n - n / 10 : ℕ) : ℚ) ≤ ((j + 1 : ℕ) : ℚ) / ((n - n / 10 : ℕ) : ℚ) := by
    have h1 : (0:ℚ) < 1 / ((n - n / 10 : ℕ) : ℚ) := by positivity
    linarith
  have hv1 : ((j + 1 : ℕ) : ℚ) / ((n - n / 10 : ℕ) : ℚ) ≤ 1 := by
    rw [div_le_one hX]
    exact_mod_cast hj
  have hq := quadS_bounds hu0 huv hv1
  have hstep := cubic_step_pos (cq_pos hs) (cq_lt hs) hq.1 hq.2
  have key : ipt n (j + 1) - ipt n j
      = (((j + 1 : ℕ) : ℚ) / ((n - n / 10 : ℕ) : ℚ) - (j:ℚ) / ((n - n / 10 : ℕ) : ℚ))
        * ((19/20 - cq n)
            * (3*((j:ℚ) / ((n - n / 10 : ℕ) : ℚ) + ((j + 1 : ℕ) : ℚ) / ((n - n / 10 : ℕ) : ℚ))
              - 2*(((j:ℚ) / ((n - n / 10 : ℕ) : ℚ))^2
                  + ((j:ℚ) / ((n - n / 10 : ℕ) : ℚ)) * (((j + 1 : ℕ) : ℚ) / ((n - n / 10 : ℕ) : ℚ))
                  + (((j + 1 : ℕ) : ℚ) / ((n - n / 10 : ℕ) : ℚ))^2))
          + cq n) := by
    unfold ipt ce
    ring
  have hpos : 0 < ipt n (j + 1) - ipt n j := by
    rw [key, hvu]
    exact mul_pos (by positivity) hstep
  linarith

-- ### assembled grid facts

theorem gridList_length {n : ℕ} (hs : 2 ≤ n / 10) : (gridList n).length = n := by
  unfold gridList
  rw [List.length_append, List.length_map, List.length_map, List.length_range,
    List.length_range]
  have h1 : n / 10 ≤ n := Nat.div_le_self n 10
  omega

theorem gridList_chain {n : ℕ} (hs : 2 ≤ n / 10) : List.Chain' (· < ·) (gridList n) := by
  have hsQ : (2:ℚ) ≤ ((n / 10 : ℕ) : ℚ) := by exact_mod_cast hs
  have hS1 : (0:ℚ) < ((n / 10 : ℕ) : ℚ) - 1 := by linarith
  unfold gridList
  rw [List.chain'_append]
  refine ⟨?_, ?_, ?_⟩
  · -- boundary chain
    rw [List.chain'_map]
    obtain ⟨k, hk⟩ : ∃ k, n / 10 - 1 = k + 1 := ⟨n / 10 - 2, by omega⟩
    rw [hk, List.chain'_range_succ]
    intro i _
    exact bpt_step hs i
  · -- interior chain
    rw [List.chain'_map]
    obtain ⟨k, hk⟩ : ∃ k, n - n / 10 + 1 = k + 1 := ⟨n - n / 10, rfl⟩
    rw [hk, List.chain'_range_succ]
    intro j hj
    exact ipt_step hs (by omega)
  · -- splice: last boundary point < first interior point
    intro x hx y hy
    obtain ⟨k, hk⟩ : ∃ k, n / 10 - 1 = k + 1 := ⟨n / 10 - 2, by omega⟩
    rw [hk, List.range_succ, List.map_append, List.map_singleton,
      List.getLast?_concat, Option.mem_some_iff] at hx
    rw [List.range_succ_eq_map, List.map_cons, List.head?_cons,
      Option.mem_some_iff] at hy
    subst hx
    subst hy
    rw [ipt_zero]
    unfold bpt
    have hk2 : (k:ℚ) = ((n / 10 : ℕ) : ℚ) - 2 := by
      have : k = n / 10 - 2 := by omega
      subst this
      rw [Nat.cast_sub (by omega : 2 ≤ n / 10)]
      norm_num
    rw [hk2, zero_add, div_lt_iff₀ hS1]
    nlinarith

theorem gridList_head {n : ℕ} (hs : 2 ≤ n / 10) : (gridList n).head? = some 0 := by
  unfold gridList
  obtain ⟨k, hk⟩ : ∃ k, n / 10 - 1 = k + 1 := ⟨n / 10 - 2, by omega⟩
  rw [hk, List.range_succ_eq_map, List.map_cons, List.cons_append, List.head?_cons,
    bpt_zero]

theorem gridList_last {n : ℕ} (hs : 2 ≤ n / 10) : (gridList n).getLast? = some 1 := by
  unfold gridList
  rw [List.range_succ, List.map_append, List.map_singleton,
    List.getLast?_append_of_ne_nil _ (by simp), List.getLast?_concat, ipt_last hs]

theorem pairwise_le_getLast {l : List ℚ} (hp : l.Pairwise (· < ·)) {x y : ℚ}
    (hx : x ∈ l) (hy : l.getLast? = some y) : x ≤ y := by
  induction l with
  | nil => cases hx
  | cons a t ih =>
    cases t with
    | nil =>
      rw [List.mem_singleton] at hx
      rw [List.getLast?_singleton, Option.some_inj] at hy
      exact le_of_eq (by rw [hx, hy])
    | cons b t2 =>
      rw [List.getLast?_cons_cons] at hy
      rcases List.mem_cons.1 hx with rfl | hx2
      · obtain ⟨hne, hyeq⟩ :=
          List.mem_getLast?_eq_getLast (show y ∈ (b :: t2).getLast? from by rw [hy]; rfl)
        have hmem : y ∈ b :: t2 := hyeq ▸ List.getLast_mem hne
        have := (List.pairwise_cons.1 hp).1 y hmem
        linarith
      · exact ih (List.pairwise_cons.1 hp).2 hx2 hy

/-- Master specification of `default_grid` for valid sizes. -/
theorem default_grid_spec {n : ℕ} (hs : 2 ≤ n / 10) :
    ∃ g, default_grid n = some g ∧ g.length = n ∧ g.head? = some 0 ∧
      g.getLast? = some 1 ∧ List.Chain' (· < ·) g ∧ ∀ x ∈ g, 0 ≤ x ∧ x ≤ 1 := by
  refine ⟨gridList n, default_grid_eq hs, gridList_length hs, gridList_head hs,
    gridList_last hs, gridList_chain hs, ?_⟩
  intro x hx
  have hp : (gridList n).Pairwise (· < ·) :=
    List.chain'_iff_pairwise.1 (gridList_chain hs)
  constructor
  · obtain ⟨t, ht⟩ : ∃ t, gridList n = 0 :: t := by
      have hh := gridList_head hs
      cases hgl : gridList n with
      | nil => rw [hgl] at hh; simp at hh
      | cons a t =>
        rw [hgl, List.head?_cons, Option.some_inj] at hh
        exact ⟨t, by rw [hh]⟩
    rw [ht] at hx hp
    rcases List.mem_cons.1 hx with rfl | hx2
    · exact le_refl 0
    · exact le_of_lt ((List.pairwise_cons.1 hp).1 x hx2)
  · exact pairwise_le_getLast hp hx (gridList_last hs)

section ExtrapolatorTheorems

theorem linear_lagrange {F : Type} [Field F] (c0 c1 x1 x2 : F) (h12 : x1 - x2 ≠ 0) :
    linear_extrap (c0 + c1*x1) (c0 + c1*x2) x1 x2 = c0 := by
  rw [linear_extrap, div_eq_iff (by intro h; exact h12 (by linear_combination -h))]
  ring


theorem quadratic_lagrange {F : Type} [Field F] (c0 c1 c2 x1 x2 x3 : F)
    (h12 : x1 - x2 ≠ 0) (h13 : x1 - x3 ≠ 0) (h23 : x2 - x3 ≠ 0) :
    quadratic_extrap (c0 + c1*x1 + c2*x1^2) (c0 + c1*x2 + c2*x2^2) (c0 + c1*x3 + c2*x3^2) x1 x2 x3 = c0 := by
  have h21 : x2 - x1 ≠ 0 := fun h => h12 (by linear_combination -h)
  have h31 : x3 - x1 ≠ 0 := fun h => h13 (by linear_combination -h)
  have h32 : x3 - x2 ≠ 0 := fun h => h23 (by linear_combination -h)
  rw [quadratic_extrap]
  field_simp
  ring


theorem cubic_lagrange {F : Type} [Field F] (c0 c1 c2 c3 x1 x2 x3 x4 : F)
    (h12 : x1 - x2 ≠ 0) (h13 : x1 - x3 ≠ 0) (h14 : x1 - x4 ≠ 0)
    (h23 : x2 - x3 ≠ 0) (h24 : x2 - x4 ≠ 0) (h34 : x3 - x4 ≠ 0) :
    cubic_extrap (c0 + c1*x1 + c2*x1^2 + c3*x1^3) (c0 + c1*x2 + c2*x2^2 + c3*x2^3) (c0 + c1*x3 + c2*x3^2 + c3*x3^3) (c0 + c1*x4 + c2*x4^2 + c3*x4^3) x1 x2 x3 x4 = c0 := by
  rw [cubic_extrap, div_eq_iff
    (mul_ne_zero (mul_ne_zero (mul_ne_zero (mul_ne_zero (mul_ne_zero h12 h13) h23) h14) h24) h34)]
  ring


theorem quartic_lagrange {F : Type} [Field F] (c0 c1 c2 c3 c4 x1 x2 x3 x4 x5 : F)
    (h12 : x1 - x2 ≠ 0) (h13 : x1 - x3 ≠ 0) (h14 : x1 - x4 ≠ 0) (h15 : x1 - x5 ≠ 0)
    (h23 : x2 - x3 ≠ 0) (h24 : x2 - x4 ≠ 0) (h25 : x2 - x5 ≠ 0)
    (h34 : x3 - x4 ≠ 0) (h35 : x3 - x5 ≠ 0) (h45 : x4 - x5 ≠ 0) :
    quartic_extrap (c0 + c1*x1 + c2*x1^2 + c3*x1^3 + c4*x1^4) (c0 + c1*x2 + c2*x2^2 + c3*x2^3 + c4*x2^4) (c0 + c1*x3 + c2*x3^2 + c3*x3^3 + c4*x3^4) (c0 + c1*x4 + c2*x4^2 + c3*x4^3 + c4*x4^4) (c0 + c1*x5 + c2*x5^2 + c3*x5^3 + c4*x5^4) x1 x2 x3 x4 x5 = c0 := by
  rw [quartic_extrap]
  simp only [quarticN_g1, quarticN_g2, quarticN_g3, quarticN_g4, quarticN]
  rw [div_eq_iff
    (mul_ne_zero (mul_ne_zero (mul_ne_zero (mul_ne_zero (mul_ne_zero (mul_ne_zero
      (mul_ne_zero (mul_ne_zero (mul_ne_zero h12 h13) h23) h14) h24) h34) h15)
      h25) h35) h45)]
  ring


theorem quintic_weights {F : Type} [Field F] (y1 y2 y3 y4 y5 y6 x1 x2 x3 x4 x5 x6 : F)
    (hden : (((x1 - x2)*(x1 - x3)*(-x2 + x3)*(x1 - x4)* (-x2 + x4)*(-x3 + x4)*(x1 - x5)*(x2 - x5)* (x3 - x5)*(x4 - x5)*(x1 - x6)*(x2 - x6)* (x3 - x6)*(x4 - x6)*(x5 - x6))) ≠ 0) :
    quintic_extrap y1 y2 y3 y4 y5 y6 x1 x2 x3 x4 x5 x6 * (((x1 - x2)*(x1 - x3)*(-x2 + x3)*(x1 - x4)* (-x2 + x4)*(-x3 + x4)*(x1 - x5)*(x2 - x5)* (x3 - x5)*(x4 - x5)*(x1 - x6)*(x2 - x6)* (x3 - x6)*(x4 - x6)*(x5 - x6))) =
      x2*x3*x4*x5*x6*(x2 - x3)*(x2 - x4)*(x2 - x5)*(x2 - x6)*(x3 - x4)*(x3 - x5)*(x3 - x6)*(x4 - x5)*(x4 - x6)*(x5 - x6) * y1
      - x1*x3*x4*x5*x6*(x1 - x3)*(x1 - x4)*(x1 - x5)*(x1 - x6)*(x3 - x4)*(x3 - x5)*(x3 - x6)*(x4 - x5)*(x4 - x6)*(x5 - x6) * y2
      + x1*x2*x4*x5*x6*(x1 - x2)*(x1 - x4)*(x1 - x5)*(x1 - x6)*(x2 - x4)*(x2 - x5)*(x2 - x6)*(x4 - x5)*(x4 - x6)*(x5 - x6) * y3
      - x1*x2*x3*x5*x6*(x1 - x2)*(x1 - x3)*(x1 - x5)*(x1 - x6)*(x2 - x3)*(x2 - x5)*(x2 - x6)*(x3 - x5)*(x3 - x6)*(x5 - x6) * y4
      + x1*x2*x3*x4*x6*(x1 - x2)*(x1 - x3)*(x1 - x4)*(x1 - x6)*(x2 - x3)*(x2 - x4)*(x2 - x6)*(x3 - x4)*(x3 - x6)*(x4 - x6) * y5
      - x1*x2*x3*x4*x5*(x1 - x2)*(x1 - x3)*(x1 - x4)*(x1 - x5)*(x2 - x3)*(x2 - x4)*(x2 - x5)*(x3 - x4)*(x3 - x5)*(x4 - x5) * y6 := by
  rw [quintic_extrap]
  simp only [quinticN_2_f_g1, quinticN_2_f_g2, quinticN_2_f_g3, quinticN_2_f_g4, quinticN_2_f, quinticN_2, quinticN_3_f_g1, quinticN_3_f_g2, quinticN_3_f_g3, quinticN_3_f_g4, quinticN_3_f, quinticN_3, quinticN_4_f_g1, quinticN_4_f_g2, quinticN_4_f_g3, quinticN_4_f_g4, quinticN_4_f, quinticN_4, quinticN_5_f_g1, quinticN_5_f_g2, quinticN_5_f_g3, quinticN_5_f_g4, quinticN_5_f, quinticN_5, quinticN_6_f_g1, quinticN_6_f_g2, quinticN_6_f_g3, quinticN_6_f_g4, quinticN_6_f, quinticN_6, quinticN]
  rw [div_mul_cancel₀ _ hden]
  ring


theorem quintic_lagrange {F : Type} [Field F] (c0 c1 c2 c3 c4 c5 x1 x2 x3 x4 x5 x6 : F)
    (h12 : x1 - x2 ≠ 0) (h13 : x1 - x3 ≠ 0) (h14 : x1 - x4 ≠ 0) (h15 : x1 - x5 ≠ 0) (h16 : x1 - x6 ≠ 0)
    (h23 : x2 - x3 ≠ 0) (h24 : x2 - x4 ≠ 0) (h25 : x2 - x5 ≠ 0) (h26 : x2 - x6 ≠ 0)
    (h34 : x3 - x4 ≠ 0) (h35 : x3 - x5 ≠ 0) (h36 : x3 - x6 ≠ 0)
    (h45 : x4 - x5 ≠ 0) (h46 : x4 - x6 ≠ 0) (h56 : x5 - x6 ≠ 0) :
    quintic_extrap
      (c0 + c1*x1 + c2*x1^2 + c3*x1^3 + c4*x1^4 + c5*x1^5) (c0 + c1*x2 + c2*x2^2 + c3*x2^3 + c4*x2^4 + c5*x2^5) (c0 + c1*x3 + c2*x3^2 + c3*x3^3 + c4*x3^4 + c5*x3^5)
      (c0 + c1*x4 + c2*x4^2 + c3*x4^3 + c4*x4^4 + c5*x4^5) (c0 + c1*x5 + c2*x5^2 + c3*x5^3 + c4*x5^4 + c5*x5^5) (c0 + c1*x6 + c2*x6^2 + c3*x6^3 + c4*x6^4 + c5*x6^5)
      x1 x2 x3 x4 x5 x6 = c0 := by
  have h23n : -x2 + x3 ≠ 0 := fun h => h23 (by linear_combination -h)
  have h24n : -x2 + x4 ≠ 0 := fun h => h24 (by linear_combination -h)
  have h34n : -x3 + x4 ≠ 0 := fun h => h34 (by linear_combination -h)
  have hden : (((x1 - x2)*(x1 - x3)*(-x2 + x3)*(x1 - x4)* (-x2 + x4)*(-x3 + x4)*(x1 - x5)*(x2 - x5)* (x3 - x5)*(x4 - x5)*(x1 - x6)*(x2 - x6)* (x3 - x6)*(x4 - x6)*(x5 - x6))) ≠ 0 :=
    mul_ne_zero (mul_ne_zero (mul_ne_zero (mul_ne_zero (mul_ne_zero (mul_ne_zero
      (mul_ne_zero (mul_ne_zero (mul_ne_zero (mul_ne_zero (mul_ne_zero (mul_ne_zero
      (mul_ne_zero (mul_ne_zero h12 h13) h23n) h14) h24n) h34n) h15) h25) h35) h45)
      h16) h26) h36) h46) h56
  have hw := quintic_weights
      (c0 + c1*x1 + c2*x1^2 + c3*x1^3 + c4*x1^4 + c5*x1^5) (c0 + c1*x2 + c2*x2^2 + c3*x2^3 + c4*x2^4 + c5*x2^5) (c0 + c1*x3 + c2*x3^2 + c3*x3^3 + c4*x3^4 + c5*x3^5)
      (c0 + c1*x4 + c2*x4^2 + c3*x4^3 + c4*x4^4 + c5*x4^5) (c0 + c1*x5 + c2*x5^2 + c3*x5^3 + c4*x5^4 + c5*x5^5) (c0 + c1*x6 + c2*x6^2 + c3*x6^3 + c4*x6^4 + c5*x6^5)
      x1 x2 x3 x4 x5 x6 hden
  refine mul_right_cancel₀ hden ?_
  rw [hw]
  ring

end ExtrapolatorTheorems

-- ### wrapper lemmas

theorem gridx_valid {pts : ℕ} (hs : 2 ≤ pts / 10) : ∃ x, gridx pts = some x := by
  obtain ⟨g, hg, hlen, -, -, -, -⟩ := default_grid_spec hs
  refine ⟨g[1], ?_⟩
  rw [gridx, hg, Option.some_bind]
  rw [npGet_nonneg _ (by omega) (by rw [hlen]; exact_mod_cast (by omega : 1 < pts))]
  exact List.getElem?_eq_getElem (by omega)

theorem extrap_loop_valid {α : Type} [RatCast α] (func : ℕ → α) (pts_l : List ℕ)
    (hv : ∀ p ∈ pts_l, 2 ≤ p / 10) :
    ∃ xs : List α, extrap_loop func pts_l = (pts_l, .ok (xs, pts_l.map func))
      ∧ xs.length = pts_l.length := by
  induction pts_l with
  | nil => exact ⟨[], rfl, rfl⟩
  | cons p rest ih =>
    obtain ⟨x, hx⟩ := gridx_valid (hv p (List.mem_cons_self p rest))
    obtain ⟨xs, hxs, hlen⟩ := ih fun q hq => hv q (List.mem_cons_of_mem p hq)
    refine ⟨((x : ℚ) : α) :: xs, ?_, by simp [hlen]⟩
    rw [extrap_loop, hx, hxs]
    rfl

theorem extrap_func_single {α : Type} [CommRing α] [Div α] [RatCast α]
    (func : ℕ → α) {pts : ℕ} (hs : 2 ≤ pts / 10) :
    extrap_func func [pts] = ([pts], .ok (func pts)) := by
  obtain ⟨xs, hloop, hlen⟩ := extrap_loop_valid func [pts]
    (by intro p hp; rw [List.mem_singleton] at hp; omega)
  rw [extrap_func, hloop]
  simp

theorem extrap_func_trace {α : Type} [CommRing α] [Div α] [RatCast α]
    (func : ℕ → α) {pts_l : List ℕ} (hv : ∀ p ∈ pts_l, 2 ≤ p / 10) :
    (extrap_func func pts_l).1 = pts_l := by
  obtain ⟨xs, hloop, hlen⟩ := extrap_loop_valid func pts_l hv
  rw [extrap_func, hloop]

theorem extrap_func_too_many {α : Type} [CommRing α] [Div α] [RatCast α]
    (func : ℕ → α) {pts_l : List ℕ} (hv : ∀ p ∈ pts_l, 2 ≤ p / 10)
    (hlong : 6 < pts_l.length) :
    extrap_func func pts_l =
      (pts_l, .error "Number of calculations to use for extrapolation must be between 1 and 6") := by
  obtain ⟨xs, hloop, hlen⟩ := extrap_loop_valid func pts_l hv
  rw [extrap_func, hloop]
  dsimp only
  rw [if_neg (by omega), if_neg (by omega), if_neg (by omega), if_neg (by omega),
    if_neg (by omega), if_neg (by omega)]

theorem extrap_func_empty {α : Type} [CommRing α] [Div α] [RatCast α] (func : ℕ → α) :
    extrap_func func ([] : List ℕ) =
      ([], .error "Number of calculations to use for extrapolation must be between 1 and 6") := rfl

-- ### log-domain wrapper lemmas

theorem make_extrap_log_func_eq {α : Type} [CommRing α] [Div α] [RatCast α]
    (ex lo : α → α) (func : ℕ → α) (args : List ℕ) :
    make_extrap_log_func ex lo func args
      = ((extrap_func (fun n => lo (func n)) args).1,
         (extrap_func (fun n => lo (func n)) args).2.map ex) := rfl

theorem make_extrap_log_func_exp {α : Type} [CommRing α] [Div α] [RatCast α]
    (ex lo : α → α) (hinv : ∀ x, lo (ex x) = x) (g : ℕ → α) (args : List ℕ) :
    make_extrap_log_func ex lo (fun n => ex (g n)) args
      = ((extrap_func g args).1, (extrap_func g args).2.map ex) := by
  have hfun : (fun n => lo (ex (g n))) = g := funext fun n => hinv (g n)
  rw [make_extrap_log_func_eq, hfun]

-- ### projection cache lemmas

theorem cached_projection_stores {F : Type} (M : FloatModel F) (pt pf h : ℤ)
    (cache : ProjCache F) :
    lookupKey (pt, pf, h) (cached_projection M pt pf h cache).2.1
      = some (cached_projection M pt pf h cache).1 := by
  unfold cached_projection
  dsimp only
  cases hlk : lookupKey (pt, pf, h) cache with
  | some v => simp [hlk]
  | none => simp [hlk, lookupKey]

theorem cached_projection_hit {F : Type} (M : FloatModel F) (pt pf h : ℤ)
    (cache : ProjCache F) (v : List F) (hv : lookupKey (pt, pf, h) cache = some v) :
    cached_projection M pt pf h cache = (v, cache, false) := by
  unfold cached_projection
  dsimp only
  rw [hv]

theorem cached_projection_second {F : Type} (M : FloatModel F) (pt pf h : ℤ)
    (cache : ProjCache F) :
    cached_projection M pt pf h (cached_projection M pt pf h cache).2.1
      = ((cached_projection M pt pf h cache).1,
         (cached_projection M pt pf h cache).2.1, false) :=
  cached_projection_hit M pt pf h _ _ (cached_projection_stores M pt pf h cache)

theorem cached_projection_miss {F : Type} (M : FloatModel F) (pt pf h : ℤ)
    (cache : ProjCache F) (hmiss : lookupKey (pt, pf, h) cache = none)
    (hnan : (projDirect M pt pf h).any M.isNaN = false) :
    cached_projection M pt pf h cache
      = (projDirect M pt pf h, ((pt, pf, h), projDirect M pt pf h) :: cache, true) := by
  unfold cached_projection
  dsimp only
  rw [hmiss]
  simp [hnan]

theorem cached_projection_nanpath {F : Type} (M : FloatModel F) (pt pf h : ℤ)
    (cache : ProjCache F) (hmiss : lookupKey (pt, pf, h) cache = none)
    (hnan : (projDirect M pt pf h).any M.isNaN = true) :
    cached_projection M pt pf h cache
      = (projFallback M pt pf h, ((pt, pf, h), projFallback M pt pf h) :: cache, true) := by
  unfold cached_projection
  dsimp only
  rw [hmiss]
  simp [hnan]

theorem projDirect_length {F : Type} (M : FloatModel F) (pt pf h : ℤ) (h0 : 0 ≤ pt) :
    (projDirect M pt pf h).length = pt.toNat + 1 := by
  unfold projDirect intRange
  rw [List.length_map, List.length_map, List.length_range]
  omega

theorem projDirect_entry {F : Type} (M : FloatModel F) (pt pf h : ℤ) {j : ℕ}
    (hj : (j : ℤ) ≤ pt) :
    (projDirect M pt pf h)[j]? = some
      (M.div (M.mul (M.comb pt j) (M.comb (pf - pt) (h - j))) (M.comb pf h)) := by
  unfold projDirect intRange
  rw [List.getElem?_map, List.getElem?_map, List.getElem?_range (by omega)]
  rfl

theorem projFallback_entry {F : Type} (M : FloatModel F) (pt pf h : ℤ) {j : ℕ}
    (hj : (j : ℤ) ≤ pt) :
    (projFallback M pt pf h)[j]? = some
      (M.exp (M.sub (M.add (lncomb M pt j) (lncomb M (pf - pt) (h - j)))
        (lncomb M pf h))) := by
  unfold projFallback intRange
  rw [List.getElem?_map, List.getElem?_map, List.getElem?_range (by omega)]
  rfl

theorem ratModel_no_nan (l : List ℚ) : l.any ratModel.isNaN = false := by
  induction l with
  | nil => rfl
  | cons a t ih => simp [List.any_cons, ih, ratModel]

-- ## Claim theorems

/-- C2: for every `num_pts` with `⌊num_pts/10⌋ ≥ 2`, `default_grid num_pts`
returns a strictly increasing sequence of length `num_pts` that starts at `0`,
ends exactly at `1`, and lies inside `[0, 1]`. -/
theorem claim_C2_default_grid {num_pts : ℕ} (hs : 2 ≤ num_pts / 10) :
    ∃ g, default_grid num_pts = some g ∧ g.length = num_pts ∧
      List.Chain' (· < ·) g ∧ g.head? = some 0 ∧ g.getLast? = some 1 ∧
      ∀ x ∈ g, 0 ≤ x ∧ x ≤ 1 := by
  obtain ⟨g, h1, h2, h3, h4, h5, h6⟩ := default_grid_spec hs
  exact ⟨g, h1, h2, h5, h3, h4, h6⟩

/-- Witness for C2 at `num_pts = 20`. -/
theorem claim_C2_default_grid_witness :
    2 ≤ 20 / 10 ∧
    ∃ g, default_grid 20 = some g ∧ g.length = 20 ∧
      List.Chain' (· < ·) g ∧ g.head? = some 0 ∧ g.getLast? = some 1 ∧
      ∀ x ∈ g, 0 ≤ x ∧ x ≤ 1 :=
  ⟨by decide, claim_C2_default_grid (by decide)⟩

/-- C3: on a cache miss with `0 ≤ proj_to ≤ proj_from` and `hits ≤ proj_from`,
the exact-arithmetic `cached_projection` returns a vector of length
`proj_to + 1` whose entry `j` is
`C(proj_to, j) * C(proj_from - proj_to, hits - j) / C(proj_from, hits)`;
in particular `cached_projection 2 4 2` on an empty cache is `[1/6, 4/6, 1/6]`. -/
theorem claim_C3_projection_formula :
    (∀ (pt pf h : ℤ) (cache : ProjCache ℚ),
      lookupKey (pt, pf, h) cache = none → 0 ≤ pt → pt ≤ pf → h ≤ pf →
      (cached_projection ratModel pt pf h cache).1.length = pt.toNat + 1 ∧
      ∀ j : ℕ, (j : ℤ) ≤ pt →
        (cached_projection ratModel pt pf h cache).1[j]? =
          some (combZ pt j * combZ (pf - pt) (h - j) / combZ pf h))
  ∧ (cached_projection ratModel 2 4 2 []).1 = [1/6, 4/6, 1/6] := by
  constructor
  · intro pt pf h cache hmiss h0 hpf hh
    rw [cached_projection_miss ratModel pt pf h cache hmiss (ratModel_no_nan _)]
    refine ⟨projDirect_length _ _ _ _ h0, ?_⟩
    intro j hj
    rw [projDirect_entry _ _ _ _ hj]
    rfl
  · rw [cached_projection_miss ratModel 2 4 2 [] rfl (ratModel_no_nan _)]
    show projDirect ratModel 2 4 2 = [1/6, 4/6, 1/6]
    unfold projDirect intRange
    rw [show (((2:ℤ) + 1)).toNat = 3 from rfl]
    norm_num [List.range_succ, combZ, ratModel, Nat.choose,
      show ((2:ℤ)).toNat = 2 from rfl]

/-- Witness for C3's general part at the concrete key `(2, 4, 2)`. -/
theorem claim_C3_projection_formula_witness :
    lookupKey ((2:ℤ), (4:ℤ), (2:ℤ)) ([] : ProjCache ℚ) = none ∧
    (cached_projection ratModel 2 4 2 []).1.length = (2:ℤ).toNat + 1 :=
  ⟨rfl, (claim_C3_projection_formula.1 2 4 2 [] rfl (by decide) (by decide) (by decide)).1⟩

/-- C4: on a cache miss, if any entry of the direct coefficient vector is NaN,
the entire returned vector is the log-space recomputation
`exp(lncomb(proj_to,j) + lncomb(proj_from-proj_to,hits-j) - lncomb(proj_from,hits))`
at every index (with `lncomb` built from `gammaln`), and the call returns
normally (the stored triple), surfacing no error. -/
theorem claim_C4_nan_fallback {F : Type} (M : FloatModel F) (pt pf h : ℤ)
    (cache : ProjCache F) (hmiss : lookupKey (pt, pf, h) cache = none)
    (hnan : (projDirect M pt pf h).any M.isNaN = true) :
    (cached_projection M pt pf h cache).1 = projFallback M pt pf h ∧
    (∀ j : ℕ, (j : ℤ) ≤ pt →
      (cached_projection M pt pf h cache).1[j]? =
        some (M.exp (M.sub (M.add (lncomb M pt j) (lncomb M (pf - pt) (h - j)))
          (lncomb M pf h)))) ∧
    cached_projection M pt pf h cache
      = (projFallback M pt pf h, ((pt, pf, h), projFallback M pt pf h) :: cache, true) := by
  have he := cached_projection_nanpath M pt pf h cache hmiss hnan
  refine ⟨by rw [he], ?_, he⟩
  intro j hj
  rw [he]
  exact projFallback_entry M pt pf h hj

/-- Witness for C4: with `Option ℚ` scalars (NaN = `none`), the key `(0, 0, 5)`
has `C(0, 5) = 0` in the denominator, the direct path divides by zero and
produces NaN, and the fallback is taken. -/
theorem claim_C4_nan_fallback_witness :
    lookupKey ((0:ℤ), (0:ℤ), (5:ℤ)) ([] : ProjCache (Option ℚ)) = none ∧
    (projDirect optModel 0 0 5).any optModel.isNaN = true ∧
    (cached_projection optModel 0 0 5 []).1 = projFallback optModel 0 0 5 := by
  have h1 : lookupKey ((0:ℤ), (0:ℤ), (5:ℤ)) ([] : ProjCache (Option ℚ)) = none := rfl
  have h2 : (projDirect optModel 0 0 5).any optModel.isNaN = true := by
    norm_num [projDirect, intRange, optModel, combZ]
  exact ⟨h1, h2, (claim_C4_nan_fallback optModel 0 0 5 [] h1 h2).1⟩

/-- C5 (counterexample to the claim as stated): a length-7 resolutions
sequence whose entries are invalid grid sizes fails with the `IndexError`
coming from `default_grid(0)[1]`, not with the error message that states the
valid range `[1, 6]`. -/
theorem claim_C5_counterexample :
    (extrap_func (fun _ => (0:ℚ)) [0, 0, 0, 0, 0, 0, 0]).2
        = .error "IndexError: index out of bounds" ∧
      "IndexError: index out of bounds" ≠ "Number of calculations to use for extrapolation must be between 1 and 6" :=
  ⟨rfl, by decide⟩

/-- C5 (amended): an empty resolutions sequence always fails with the
`ValueError` whose message states the valid range 1..6; a sequence of length
greater than 6 fails with that same message provided every entry is a valid
grid size (`⌊p/10⌋ ≥ 2`, so the per-entry grid-spacing computation succeeds —
otherwise the `IndexError` from the grid indexing surfaces first).  In both
cases the error is returned immediately, with no retry. -/
theorem claim_C5_amended {α : Type} [CommRing α] [Div α] [RatCast α]
    (func : ℕ → α) (pts_l : List ℕ) :
    (pts_l = [] → extrap_func func pts_l = ([], .error "Number of calculations to use for extrapolation must be between 1 and 6")) ∧
    ((∀ p ∈ pts_l, 2 ≤ p / 10) → 6 < pts_l.length →
      extrap_func func pts_l = (pts_l, .error "Number of calculations to use for extrapolation must be between 1 and 6")) := by
  constructor
  · rintro rfl
    exact extrap_func_empty func
  · intro hv hlong
    exact extrap_func_too_many func hv hlong

/-- Witness for C5 (amended) at a valid length-7 sequence and at `[]`. -/
theorem claim_C5_amended_witness :
    ((∀ p ∈ [20, 20, 20, 20, 20, 20, 20], 2 ≤ p / 10) ∧
      6 < ([20, 20, 20, 20, 20, 20, 20] : List ℕ).length) ∧
    extrap_func (fun _ => (0:ℚ)) [20, 20, 20, 20, 20, 20, 20]
      = ([20, 20, 20, 20, 20, 20, 20], .error "Number of calculations to use for extrapolation must be between 1 and 6") ∧
    extrap_func (fun _ => (0:ℚ)) [] = ([], .error "Number of calculations to use for extrapolation must be between 1 and 6") :=
  ⟨⟨by decide, by decide⟩,
    (claim_C5_amended (fun _ => (0:ℚ)) _).2 (by decide) (by decide),
    (claim_C5_amended (fun _ => (0:ℚ)) []).1 rfl⟩

/-- C6: `make_extrap_log_func` (with `exp`/`log` instantiated as the real
exponential and logarithm) equals `exp` mapped over the result of the plain
extrapolation of `log ∘ f`; consequently on `f = exp ∘ g` it reproduces the
plain extrapolation of `g`, exponentiated. -/
theorem claim_C6_log_extrap :
    (∀ f : ℕ → ℝ, (∀ n, 0 < f n) → ∀ args : List ℕ,
      1 ≤ args.length → args.length ≤ 6 →
      make_extrap_log_func Real.exp Real.log f args
        = ((extrap_func (fun n => Real.log (f n)) args).1,
           (extrap_func (fun n => Real.log (f n)) args).2.map Real.exp))
  ∧ (∀ (g : ℕ → ℝ) (args : List ℕ), 1 ≤ args.length → args.length ≤ 6 →
      make_extrap_log_func Real.exp Real.log (fun n => Real.exp (g n)) args
        = ((extrap_func g args).1, (extrap_func g args).2.map Real.exp)) := by
  constructor
  · intro f _ args _ _
    exact make_extrap_log_func_eq Real.exp Real.log f args
  · intro g args _ _
    exact make_extrap_log_func_exp Real.exp Real.log Real.log_exp g args

/-- Witness for C6 at `f = exp ∘ 0` and `args = [20]`. -/
theorem claim_C6_log_extrap_witness :
    (∀ n : ℕ, (0:ℝ) < Real.exp ((fun _ => (0:ℝ)) n)) ∧
    (1 ≤ ([20] : List ℕ).length ∧ ([20] : List ℕ).length ≤ 6) ∧
    make_extrap_log_func Real.exp Real.log (fun n => Real.exp ((fun _ => (0:ℝ)) n)) [20]
      = ((extrap_func (fun _ => (0:ℝ)) [20]).1,
         (extrap_func (fun _ => (0:ℝ)) [20]).2.map Real.exp) :=
  ⟨fun _ => Real.exp_pos 0, ⟨by decide, by decide⟩,
    claim_C6_log_extrap.2 (fun _ => (0:ℝ)) [20] (by decide) (by decide)⟩

/-- C7 (counterexample to the claim as stated): `default_grid 10` does not
succeed — the boundary segment has a single point, so `grid[-2]` raises. -/
theorem claim_C7_counterexample : default_grid 10 = none := rfl

/-- C7 (amended): `default_grid 10` computes `small_pts = 1` and the one-point
boundary array `linspace 0 (1/20) 1 = [0]`, but then the `grid[-2]` access
needed for `dx_start` is out of bounds, so the call fails with an index error
and returns no grid. -/
theorem claim_C7_amended :
    10 / 10 = 1 ∧ linspace 0 (1/20) 1 = [0] ∧
    npGet (linspace 0 (1/20) 1) (-2) = none ∧ default_grid 10 = none :=
  ⟨rfl, rfl, rfl, rfl⟩

/-- C8: every call stores its result under its key before returning (on a hit
the stored vector is what is returned), and an immediately repeated call with
the same key returns the identical stored vector, leaves the cache unchanged,
and performs no recomputation (the instrumentation flag is `false`). -/
theorem claim_C8_cache_behaviour {F : Type} (M : FloatModel F) (pt pf h : ℤ)
    (cache : ProjCache F) :
    lookupKey (pt, pf, h) (cached_projection M pt pf h cache).2.1
        = some (cached_projection M pt pf h cache).1 ∧
    cached_projection M pt pf h (cached_projection M pt pf h cache).2.1
        = ((cached_projection M pt pf h cache).1,
           (cached_projection M pt pf h cache).2.1, false) :=
  ⟨cached_projection_stores M pt pf h cache, cached_projection_second M pt pf h cache⟩

/-- C9 (counterexample to the claim as stated): on the length-1 sequence `[0]`
the wrapped function's sample is never returned — the grid-spacing computation
fails first, so the call errors instead of returning `f 0`. -/
theorem claim_C9_counterexample :
    (extrap_func (fun _ => (0:ℚ)) [0]).2 = .error "IndexError: index out of bounds" ∧
    ∀ r : ℚ, (extrap_func (fun _ => (0:ℚ)) [0]).2 ≠ .ok r := by
  refine ⟨rfl, ?_⟩
  intro r hr
  rw [show (extrap_func (fun _ => (0:ℚ)) [0]).2 = .error "IndexError: index out of bounds" from rfl] at hr
  exact Except.noConfusion hr

/-- C9 (amended): for a length-1 resolutions sequence whose entry is a valid
grid size (`⌊pts/10⌋ ≥ 2`), the returned callable returns the single computed
sample unchanged; the result type is generic, covering scalars and arrays. -/
theorem claim_C9_amended {α : Type} [CommRing α] [Div α] [RatCast α]
    (func : ℕ → α) {pts : ℕ} (hs : 2 ≤ pts / 10) :
    extrap_func func [pts] = ([pts], .ok (func pts)) :=
  extrap_func_single func hs

/-- Witness for C9 (amended) at `pts = 20`. -/
theorem claim_C9_amended_witness :
    2 ≤ 20 / 10 ∧ extrap_func (fun _ => (37:ℚ)) [20] = ([20], .ok 37) :=
  ⟨by decide, claim_C9_amended (fun _ => (37:ℚ)) (by decide)⟩

/-- C10 (counterexample to the claim as stated): on `[5]` the wrapped function
is never invoked (the trace is empty), because `default_grid 5` fails before
`func` is called — so `f` is not invoked once per entry for every sequence. -/
theorem claim_C10_counterexample :
    (extrap_func (fun _ => (0:ℚ)) [5]).1 = [] ∧ ([] : List ℕ) ≠ [5] :=
  ⟨rfl, by decide⟩

/-- C10 (amended): when every entry is a valid grid size, the wrapped function
is invoked exactly once per entry, in sequence order, before the
length-validity dispatch; in particular for a valid sequence of length greater
than 6 every entry is still evaluated and only afterwards is the
invalid-length error raised; for an empty sequence the function is never
invoked.  (If an entry's grid computation fails, the iteration stops there
and only the preceding entries were evaluated.) -/
theorem claim_C10_amended {α : Type} [CommRing α] [Div α] [RatCast α]
    (func : ℕ → α) (pts_l : List ℕ) :
    ((∀ p ∈ pts_l, 2 ≤ p / 10) → (extrap_func func pts_l).1 = pts_l) ∧
    ((∀ p ∈ pts_l, 2 ≤ p / 10) → 6 < pts_l.length →
      extrap_func func pts_l = (pts_l, .error "Number of calculations to use for extrapolation must be between 1 and 6")) ∧
    (extrap_func func []).1 = ([] : List ℕ) :=
  ⟨fun hv => extrap_func_trace func hv,
   fun hv hlong => extrap_func_too_many func hv hlong,
   rfl⟩

/-- Witness for C10 (amended) at a valid length-7 sequence. -/
theorem claim_C10_amended_witness :
    (∀ p ∈ [20, 20, 20, 20, 20, 20, 20], 2 ≤ p / 10) ∧
    (extrap_func (fun _ => (0:ℚ)) [20, 20, 20, 20, 20, 20, 20]).1
      = [20, 20, 20, 20, 20, 20, 20] :=
  ⟨by decide, (claim_C10_amended (fun _ => (0:ℚ)) _).1 (by decide)⟩


-- ### C1: the extrapolators compute the Lagrange value at 0

theorem eval_expand2 {F : Type} [Field F] (p : Polynomial F)
    (hdeg : p.natDegree ≤ 1) (x : F) :
    p.eval x = p.coeff 0 + p.coeff 1 * x := by
  rw [Polynomial.eval_eq_sum_range' (by omega : p.natDegree < 2)]
  simp only [Finset.sum_range_succ, Finset.sum_range_zero, pow_zero, pow_one]
  ring

theorem eval_expand3 {F : Type} [Field F] (p : Polynomial F)
    (hdeg : p.natDegree ≤ 2) (x : F) :
    p.eval x = p.coeff 0 + p.coeff 1 * x + p.coeff 2 * x^2 := by
  rw [Polynomial.eval_eq_sum_range' (by omega : p.natDegree < 3)]
  simp only [Finset.sum_range_succ, Finset.sum_range_zero, pow_zero, pow_one]
  ring

theorem eval_expand4 {F : Type} [Field F] (p : Polynomial F)
    (hdeg : p.natDegree ≤ 3) (x : F) :
    p.eval x = p.coeff 0 + p.coeff 1 * x + p.coeff 2 * x^2 + p.coeff 3 * x^3 := by
  rw [Polynomial.eval_eq_sum_range' (by omega : p.natDegree < 4)]
  simp only [Finset.sum_range_succ, Finset.sum_range_zero, pow_zero, pow_one]
  ring

theorem eval_expand5 {F : Type} [Field F] (p : Polynomial F)
    (hdeg : p.natDegree ≤ 4) (x : F) :
    p.eval x = p.coeff 0 + p.coeff 1 * x + p.coeff 2 * x^2 + p.coeff 3 * x^3 + p.coeff 4 * x^4 := by
  rw [Polynomial.eval_eq_sum_range' (by omega : p.natDegree < 5)]
  simp only [Finset.sum_range_succ, Finset.sum_range_zero, pow_zero, pow_one]
  ring

theorem eval_expand6 {F : Type} [Field F] (p : Polynomial F)
    (hdeg : p.natDegree ≤ 5) (x : F) :
    p.eval x = p.coeff 0 + p.coeff 1 * x + p.coeff 2 * x^2 + p.coeff 3 * x^3 + p.coeff 4 * x^4 + p.coeff 5 * x^5 := by
  rw [Polynomial.eval_eq_sum_range' (by omega : p.natDegree < 6)]
  simp only [Finset.sum_range_succ, Finset.sum_range_zero, pow_zero, pow_one]
  ring

/-- C1: for every `k` in `{2,...,6}`, if the `y` values lie on a polynomial `p`
of degree at most `k - 1` at `k` pairwise distinct scalar positions, then the
order-`k` extrapolator returns exactly `p(0)` — the Lagrange interpolating
polynomial through the `k` points evaluated at `0` — in exact arithmetic over
any field.  (For array-valued `y` the source operations are elementwise, so
this statement applied at each index is the array case.) -/
theorem claim_C1_extrapolators_lagrange :
    (∀ (F : Type) [Field F] (p : Polynomial F) (x1 x2 : F),
      p.natDegree ≤ 1 → x1 ≠ x2 →
      linear_extrap (p.eval x1) (p.eval x2) x1 x2 = p.eval 0)
  ∧ (∀ (F : Type) [Field F] (p : Polynomial F) (x1 x2 x3 : F),
      p.natDegree ≤ 2 → x1 ≠ x2 → x1 ≠ x3 → x2 ≠ x3 →
      quadratic_extrap (p.eval x1) (p.eval x2) (p.eval x3) x1 x2 x3 = p.eval 0)
  ∧ (∀ (F : Type) [Field F] (p : Polynomial F) (x1 x2 x3 x4 : F),
      p.natDegree ≤ 3 → x1 ≠ x2 → x1 ≠ x3 → x1 ≠ x4 → x2 ≠ x3 → x2 ≠ x4 → x3 ≠ x4 →
      cubic_extrap (p.eval x1) (p.eval x2) (p.eval x3) (p.eval x4) x1 x2 x3 x4 = p.eval 0)
  ∧ (∀ (F : Type) [Field F] (p : Polynomial F) (x1 x2 x3 x4 x5 : F),
      p.natDegree ≤ 4 → x1 ≠ x2 → x1 ≠ x3 → x1 ≠ x4 → x1 ≠ x5 → x2 ≠ x3 → x2 ≠ x4 → x2 ≠ x5 → x3 ≠ x4 → x3 ≠ x5 → x4 ≠ x5 →
      quartic_extrap (p.eval x1) (p.eval x2) (p.eval x3) (p.eval x4) (p.eval x5) x1 x2 x3 x4 x5 = p.eval 0)
  ∧ (∀ (F : Type) [Field F] (p : Polynomial F) (x1 x2 x3 x4 x5 x6 : F),
      p.natDegree ≤ 5 → x1 ≠ x2 → x1 ≠ x3 → x1 ≠ x4 → x1 ≠ x5 → x1 ≠ x6 → x2 ≠ x3 → x2 ≠ x4 → x2 ≠ x5 → x2 ≠ x6 → x3 ≠ x4 → x3 ≠ x5 → x3 ≠ x6 → x4 ≠ x5 → x4 ≠ x6 → x5 ≠ x6 →
      quintic_extrap (p.eval x1) (p.eval x2) (p.eval x3) (p.eval x4) (p.eval x5) (p.eval x6) x1 x2 x3 x4 x5 x6 = p.eval 0) := by
  refine ⟨?_, ?_, ?_, ?_, ?_⟩
  · intro F _ p x1 x2 hdeg h12
    rw [eval_expand2 p hdeg x1, eval_expand2 p hdeg x2, eval_expand2 p hdeg 0,
      linear_lagrange (p.coeff 0) (p.coeff 1) x1 x2 (sub_ne_zero.mpr h12)]
    ring
  · intro F _ p x1 x2 x3 hdeg h12 h13 h23
    rw [eval_expand3 p hdeg x1, eval_expand3 p hdeg x2, eval_expand3 p hdeg x3, eval_expand3 p hdeg 0,
      quadratic_lagrange (p.coeff 0) (p.coeff 1) (p.coeff 2) x1 x2 x3 (sub_ne_zero.mpr h12) (sub_ne_zero.mpr h13) (sub_ne_zero.mpr h23)]
    ring
  · intro F _ p x1 x2 x3 x4 hdeg h12 h13 h14 h23 h24 h34
    rw [eval_expand4 p hdeg x1, eval_expand4 p hdeg x2, eval_expand4 p hdeg x3, eval_expand4 p hdeg x4, eval_expand4 p hdeg 0,
      cubic_lagrange (p.coeff 0) (p.coeff 1) (p.coeff 2) (p.coeff 3) x1 x2 x3 x4 (sub_ne_zero.mpr h12) (sub_ne_zero.mpr h13) (sub_ne_zero.mpr h14) (sub_ne_zero.mpr h23) (sub_ne_zero.mpr h24) (sub_ne_zero.mpr h34)]
    ring
  · intro F _ p x1 x2 x3 x4 x5 hdeg h12 h13 h14 h15 h23 h24 h25 h34 h35 h45
    rw [eval_expand5 p hdeg x1, eval_expand5 p hdeg x2, eval_expand5 p hdeg x3, eval_expand5 p hdeg x4, eval_expand5 p hdeg x5, eval_expand5 p hdeg 0,
      quartic_lagrange (p.coeff 0) (p.coeff 1) (p.coeff 2) (p.coeff 3) (p.coeff 4) x1 x2 x3 x4 x5 (sub_ne_zero.mpr h12) (sub_ne_zero.mpr h13) (sub_ne_zero.mpr h14) (sub_ne_zero.mpr h15) (sub_ne_zero.mpr h23) (sub_ne_zero.mpr h24) (sub_ne_zero.mpr h25) (sub_ne_zero.mpr h34) (sub_ne_zero.mpr h35) (sub_ne_zero.mpr h45)]
    ring
  · intro F _ p x1 x2 x3 x4 x5 x6 hdeg h12 h13 h14 h15 h16 h23 h24 h25 h26 h34 h35 h36 h45 h46 h56
    rw [eval_expand6 p hdeg x1, eval_expand6 p hdeg x2, eval_expand6 p hdeg x3, eval_expand6 p hdeg x4, eval_expand6 p hdeg x5, eval_expand6 p hdeg x6, eval_expand6 p hdeg 0,
      quintic_lagrange (p.coeff 0) (p.coeff 1) (p.coeff 2) (p.coeff 3) (p.coeff 4) (p.coeff 5) x1 x2 x3 x4 x5 x6 (sub_ne_zero.mpr h12) (sub_ne_zero.mpr h13) (sub_ne_zero.mpr h14) (sub_ne_zero.mpr h15) (sub_ne_zero.mpr h16) (sub_ne_zero.mpr h23) (sub_ne_zero.mpr h24) (sub_ne_zero.mpr h25) (sub_ne_zero.mpr h26) (sub_ne_zero.mpr h34) (sub_ne_zero.mpr h35) (sub_ne_zero.mpr h36) (sub_ne_zero.mpr h45) (sub_ne_zero.mpr h46) (sub_ne_zero.mpr h56)]
    ring

/-- Witness for C1: the polynomial `p = X` at nodes `1, 2, ..., k`. -/
theorem claim_C1_extrapolators_lagrange_witness :
    linear_extrap (1:ℚ) 2 1 2 = 0 ∧
    quadratic_extrap (1:ℚ) 2 3 1 2 3 = 0 ∧
    cubic_extrap (1:ℚ) 2 3 4 1 2 3 4 = 0 ∧
    quartic_extrap (1:ℚ) 2 3 4 5 1 2 3 4 5 = 0 ∧
    quintic_extrap (1:ℚ) 2 3 4 5 6 1 2 3 4 5 6 = 0 := by
  refine ⟨?_, ?_, ?_, ?_, ?_⟩
  · simpa using claim_C1_extrapolators_lagrange.1 ℚ Polynomial.X 1 2
      (by simp) (by norm_num)
  · simpa using claim_C1_extrapolators_lagrange.2.1 ℚ Polynomial.X 1 2 3
      (by simp) (by norm_num) (by norm_num) (by norm_num)
  · simpa using claim_C1_extrapolators_lagrange.2.2.1 ℚ Polynomial.X 1 2 3 4
      (by simp) (by norm_num) (by norm_num) (by norm_num) (by norm_num)
      (by norm_num) (by norm_num)
  · simpa using claim_C1_extrapolators_lagrange.2.2.2.1 ℚ Polynomial.X 1 2 3 4 5
      (by simp) (by norm_num) (by norm_num) (by norm_num) (by norm_num)
      (by norm_num) (by norm_num) (by norm_num) (by norm_num) (by norm_num)
      (by norm_num)
  · simpa using claim_C1_extrapolators_lagrange.2.2.2.2 ℚ Polynomial.X 1 2 3 4 5 6
      (by simp) (by norm_num) (by norm_num) (by norm_num) (by norm_num)
      (by norm_num) (by norm_num) (by norm_num) (by norm_num) (by norm_num)
      (by norm_num) (by norm_num) (by norm_num) (by norm_num) (by norm_num)
      (by norm_num)

end Dadi
